import Mathlib

/-!
Verification development for the clarion emergency-response pipeline.

The Python source under `src/agents/` is shallowly embedded below:

* `extract_contacts_from_markdown` (src/agents/resource_agent.py lines 97-223;
  an identical copy lives in src/agents/enhanced_resource_agent.py lines 35-161)
  is embedded as a pure function over `List Char`, with each of the Python
  `re` patterns used by the source translated node-by-node into a small
  backtracking regular-expression engine (`RE`/`reMat`) implementing the
  leftmost / ordered-alternation / greedy-lazy semantics of CPython `re`.
* the orchestrator (src/agents/orchestrator.py) and the specialist agents
  (rescue_agent.py, information_agent.py, resource_agent.py) are embedded as
  functions over an explicit collaborator record `Collab`.  External
  capabilities that are not part of the repository source
  (`utils.ai_helpers.call_cerebras_api`, `json.loads`, the exa search client,
  the crawl4ai fetcher, the per-agent chat clients) are modelled from the
  spec (§6) as oracle fields of `Collab`; universally quantified theorems
  quantify over every oracle behaviour, so they cover the real collaborators.
* Python runtime errors (KeyError / TypeError / AttributeError) that the
  source can raise are modelled explicitly with `PyResult`; a function whose
  Python original catches every exception is embedded as a total function.

Python `dict` values are modelled as association lists (`JObj`) with
first-key lookup and replace-in-place update, JSON numbers as rationals
(`ℚ`; the int/float distinction of Python is not observable in any claim),
and `str()` of containers by a best-effort repr (only ever used to build
prompt text that is fed back to an oracle).
-/

/-! ### Basic string machinery (Python `str` semantics on `List Char`) -/

/-- Characters matched by Python `\s` (ASCII range; the source texts in all
concrete claims are ASCII). -/
def pySpace (c : Char) : Bool :=
  c = ' ' || c = '\t' || c = '\n' || c = '\x0d' || c = '\x0c' || c = '\x0b'

def isDigitCh (c : Char) : Bool := '0' ≤ c && c ≤ '9'

def isAlphaCh (c : Char) : Bool := ('a' ≤ c && c ≤ 'z') || ('A' ≤ c && c ≤ 'Z')

/-- Python `\w` (ASCII). -/
def isWordCh (c : Char) : Bool := isAlphaCh c || isDigitCh c || c = '_'

def lowerCh (c : Char) : Char :=
  if 'A' ≤ c && c ≤ 'Z' then Char.ofNat (c.toNat + 32) else c

def lowerStr (s : List Char) : List Char := s.map lowerCh

/-- Python `str.strip()` (whitespace both ends). -/
def pyStrip (s : List Char) : List Char :=
  (s.dropWhile pySpace).reverse.dropWhile pySpace |>.reverse

/-- Does `pat` occur as a contiguous substring of `s`?  (Python `pat in s`.) -/
def strContains (s pat : List Char) : Bool :=
  match s with
  | [] => pat.isPrefixOf ([] : List Char)
  | _ :: t => pat.isPrefixOf s || strContains t pat

/-- Python `s.startswith(p)`. -/
def pyStartsWith (s p : List Char) : Bool := p.isPrefixOf s

/-- Python `s.split('\n')`. -/
def splitLines (s : List Char) : List (List Char) :=
  match s with
  | [] => [[]]
  | c :: t =>
    let rest := splitLines t
    if c = '\n' then [] :: rest
    else match rest with
      | [] => [[c]]
      | l :: ls => (c :: l) :: ls

/-- `dict.fromkeys` style deduplication: keep the first occurrence of each
element, in order of first appearance (`seen` accumulates kept keys). -/
def pyDedupGo (seen : List (List Char)) : List (List Char) → List (List Char)
  | [] => []
  | x :: xs =>
    if seen.contains x then pyDedupGo seen xs
    else x :: pyDedupGo (x :: seen) xs

def pyDedup (l : List (List Char)) : List (List Char) := pyDedupGo [] l

/-- Python `str.find` for a single character: index of first occurrence. -/
def pyFindChar (s : List Char) (c : Char) : Option Nat :=
  match s with
  | [] => none
  | x :: t => if x = c then some 0 else (pyFindChar t c).map (· + 1)

/-- Python `str.rfind` for a single character: index of last occurrence. -/
def pyRFindChar (s : List Char) (c : Char) : Option Nat :=
  match (pyFindChar s.reverse c) with
  | none => none
  | some i => some (s.length - 1 - i)

/-- Python slice `s[a:b]`. -/
def pySlice (s : List Char) (a b : Nat) : List Char :=
  (s.drop a).take (b - a)

/-! ### A small backtracking regex engine with CPython `re` semantics

Only the constructs appearing in the source's patterns are supported:
single-character classes, literals (case sensitive / insensitive), ordered
alternation, greedy `?`, greedy and lazy counted repetition of a character
class, one- and two-index capturing groups, negative lookahead, fixed-width
negative lookbehind, and word boundaries.  Matching is leftmost-first with
ordered-alternation backtracking, exactly as in CPython `re`. -/

inductive RE where
  | eps : RE
  | cls (p : Char → Bool) : RE
  | lit (cs : List Char) : RE
  | litCI (cs : List Char) : RE
  | cat (a b : RE) : RE
  | alt (a b : RE) : RE
  | opt (a : RE) : RE
  | repG (p : Char → Bool) (lo : Nat) (hi : Option Nat) : RE
  | repL (p : Char → Bool) (lo : Nat) (hi : Option Nat) : RE
  | group (idx : Nat) (a : RE) : RE
  | nla (a : RE) : RE
  | nlb (w : Nat) (a : RE) : RE
  | wb : RE

/-- `cat` of a list, for readability of the transcribed patterns. -/
def RE.seq (l : List RE) : RE := l.foldr RE.cat RE.eps

abbrev Caps := List (Nat × List Char)

/-- Length of the maximal run of class-`p` characters starting at `i`. -/
def runLen (s : List Char) (p : Char → Bool) (i : Nat) : Nat :=
  ((s.drop i).takeWhile p).length

/-- Try candidate repetition counts in the given order; first success wins. -/
def tryCounts (f : Nat → Option α) : List Nat → Option α
  | [] => none
  | j :: rest =>
    match f j with
    | some r => some r
    | none => tryCounts f rest

/-- Does the literal `cs` occur at position `i` of `s` (case sensitive)? -/
def litAt (s : List Char) (i : Nat) (cs : List Char) : Bool :=
  cs.isPrefixOf (s.drop i)

/-- Case-insensitive literal occurrence (`cs` is stored lowercased). -/
def litAtCI (s : List Char) (i : Nat) (cs : List Char) : Bool :=
  cs.isPrefixOf (lowerStr ((s.drop i).take cs.length))

/-- Is position `i` a word boundary of `s` (Python `\b`)? -/
def atBoundary (s : List Char) (i : Nat) : Bool :=
  let before := match s.get? (i - 1) with
    | some c => if i = 0 then false else isWordCh c
    | none => false
  let here := match s.get? i with
    | some c => isWordCh c
    | none => false
  before != here

/-- The backtracking matcher.  `reMat s r i cp k` tries to match `r` at
position `i` of `s` with captures-so-far `cp`, calling the continuation `k`
on the end position and updated captures of each candidate match, in the
order CPython's backtracking engine would produce them; the first candidate
accepted by `k` wins. -/
def reMat (s : List Char) : RE → Nat → Caps →
    (Nat → Caps → Option (Nat × Caps)) → Option (Nat × Caps)
  | .eps, i, cp, k => k i cp
  | .cls p, i, cp, k =>
    match s.get? i with
    | some c => if p c then k (i + 1) cp else none
    | none => none
  | .lit cs, i, cp, k => if litAt s i cs then k (i + cs.length) cp else none
  | .litCI cs, i, cp, k => if litAtCI s i cs then k (i + cs.length) cp else none
  | .cat a b, i, cp, k => reMat s a i cp (fun j cp2 => reMat s b j cp2 k)
  | .alt a b, i, cp, k =>
    match reMat s a i cp k with
    | some r => some r
    | none => reMat s b i cp k
  | .opt a, i, cp, k =>
    match reMat s a i cp k with
    | some r => some r
    | none => k i cp
  | .repG p lo hi, i, cp, k =>
    let m := runLen s p i
    let top := match hi with | some h => min h m | none => m
    if top < lo then none
    else tryCounts (fun j => k (i + j) cp) ((List.range' lo (top + 1 - lo)).reverse)
  | .repL p lo hi, i, cp, k =>
    let m := runLen s p i
    let top := match hi with | some h => min h m | none => m
    if top < lo then none
    else tryCounts (fun j => k (i + j) cp) (List.range' lo (top + 1 - lo))
  | .group idx a, i, cp, k =>
    reMat s a i cp (fun j cp2 => k j ((idx, pySlice s i j) :: cp2))
  | .nla a, i, cp, k =>
    match reMat s a i cp (fun j cp2 => some (j, cp2)) with
    | some _ => none
    | none => k i cp
  | .nlb w a, i, cp, k =>
    if i < w then k i cp
    else
      match reMat s a (i - w) cp
          (fun j cp2 => if j = i then some (j, cp2) else none) with
      | some _ => none
      | none => k i cp
  | .wb, i, cp, k => if atBoundary s i then k i cp else none

/-- A single match attempt anchored at position `i` (first candidate). -/
def reMatchAt (r : RE) (s : List Char) (i : Nat) : Option (Nat × Caps) :=
  reMat s r i [] (fun j cp => some (j, cp))

/-- Try anchored matches at each position of the list, in order. -/
def reSearchPos (r : RE) (s : List Char) : List Nat → Option (Nat × Nat × Caps)
  | [] => none
  | i :: rest =>
    match reMatchAt r s i with
    | some (j, cp) => some (i, j, cp)
    | none => reSearchPos r s rest

/-- Python `re.search` scanning from position `i`: leftmost match;
returns (start, end, captures). -/
def reSearchFrom (r : RE) (s : List Char) (i : Nat) :
    Option (Nat × Nat × Caps) :=
  reSearchPos r s (List.range' i (s.length + 1 - i))

def reSearch (r : RE) (s : List Char) : Option (Nat × Nat × Caps) :=
  reSearchFrom r s 0

/-- Boolean `re.search` test. -/
def reTest (r : RE) (s : List Char) : Bool := (reSearch r s).isSome

/-- Python `re.findall` match list (start, end, captures per match),
non-overlapping, scanning left to right. -/
def reFindAllFrom (r : RE) (s : List Char) (fuel : Nat) (i : Nat) :
    List (Nat × Nat × Caps) :=
  match fuel with
  | 0 => []
  | fuel + 1 =>
    match reSearchFrom r s i with
    | none => []
    | some (st, en, cp) =>
      (st, en, cp) :: reFindAllFrom r s fuel (if en > st then en else en + 1)

def reFindAll (r : RE) (s : List Char) : List (Nat × Nat × Caps) :=
  reFindAllFrom r s (s.length + 1) 0

/-- Value of capture group `idx` of a match (`''` when the group did not
participate), as Python reports it. -/
def capOf (cp : Caps) (idx : Nat) : List Char :=
  match cp.find? (fun q => q.1 = idx) with
  | some q => q.2
  | none => []

/-- Python `re.fullmatch` against a single character class `p{1,}`. -/
def fullMatchCls (p : Char → Bool) (s : List Char) : Bool :=
  !s.isEmpty && s.all p

/-- Python `re.split(r'\s{10,}', s)`: split on maximal whitespace runs of
length at least 10 (fuel decreases with each consumed character). -/
def splitGapF : Nat → List Char → List (List Char)
  | 0, _ => []
  | fuel + 1, s =>
    match s with
    | [] => [[]]
    | c :: t =>
      if pySpace c then
        if 10 ≤ (List.takeWhile pySpace (c :: t)).length then
          [] :: splitGapF fuel ((c :: t).drop (List.takeWhile pySpace (c :: t)).length)
        else
          match splitGapF fuel t with
          | [] => [[c]]
          | l :: ls => (c :: l) :: ls
      else
        match splitGapF fuel t with
        | [] => [[c]]
        | l :: ls => (c :: l) :: ls

def splitGap (s : List Char) : List (List Char) := splitGapF (s.length + 1) s

/-! ### The source's `re` patterns, transcribed node by node -/

/-- Ordered alternation of a non-empty list (first alternative preferred). -/
def RE.alts : List RE → RE
  | [] => .eps
  | [a] => a
  | a :: rest => .alt a (RE.alts rest)

def RE.chr (c : Char) : RE := .cls (fun x => x = c)

def RE.lits (s : String) : RE := .lit s.data

/-- Case-insensitive literal (IGNORECASE patterns). -/
def RE.litsCI (s : String) : RE := .litCI (lowerStr s.data)

/-- The class `[-.\s]`. -/
def sepCls (c : Char) : Bool := c = '-' || c = '.' || pySpace c

/-- The class `[\d\s-]`. -/
def phoneRunCls (c : Char) : Bool := isDigitCh c || pySpace c || c = '-'

/-- The class `[\d\s\+\(\)-]` inside the `tel:` link. -/
def telCls (c : Char) : Bool :=
  isDigitCh c || pySpace c || c = '+' || c = '(' || c = ')' || c = '-'

/-- Python `.` (any character except newline). -/
def anyNoNL (c : Char) : Bool := c ≠ '\n'

/-- `(?:\(?\d{3}\)?[-.\s]?\d{3}[-.\s]?\d{4})` — "Common US format". -/
def usFormatRE : RE := .seq [
  .opt (.chr '('), .repG isDigitCh 3 (some 3), .opt (.chr ')'),
  .opt (.cls sepCls), .repG isDigitCh 3 (some 3),
  .opt (.cls sepCls), .repG isDigitCh 4 (some 4)]

/-- `(?:\+\d{1,3}[-.\s]?)?(?:\(?\d{1,4}\)?[-.\s]?)?[\d\s-]{7,18}(?:\s*(?:ext|x|#)\.?\s*\d{1,5})?`
— the "More general global" alternative. -/
def generalPhoneRE : RE := .seq [
  .opt (.seq [.chr '+', .repG isDigitCh 1 (some 3), .opt (.cls sepCls)]),
  .opt (.seq [.opt (.chr '('), .repG isDigitCh 1 (some 4), .opt (.chr ')'),
              .opt (.cls sepCls)]),
  .repG phoneRunCls 7 (some 18),
  .opt (.seq [.repG pySpace 0 none,
              RE.alts [.litsCI "ext", .litsCI "x", .litsCI "#"],
              .opt (.chr '.'), .repG pySpace 0 none,
              .repG isDigitCh 1 (some 5)])]

/-- `\[.*?\]\(tel:([\d\s\+\(\)-]+)\)` — markdown `tel:` link; group 1 is the
only capturing group of both phone patterns. -/
def telLinkRE : RE := .seq [
  .chr '[', .repL anyNoNL 0 none, .litsCI "](tel:",
  .group 1 (.repG telCls 1 none), .chr ')']

/-- The full emergency-phone pattern of
src/agents/resource_agent.py lines 120-126 (re.IGNORECASE):
keyword (+ separators + optional colon) followed by the US format,
or the general global pattern, or a markdown `tel:` link. -/
def emergencyPhoneRE : RE := RE.alts [
  .seq [RE.alts [.litsCI "emergency", .litsCI "hotline", .litsCI "urgent",
                 .litsCI "24/7", .litsCI "rescue"],
        .repG sepCls 0 none, .opt (.chr ':'), .repG sepCls 0 none,
        usFormatRE],
  generalPhoneRE,
  telLinkRE]

/-- The standard-phone pattern of src/agents/resource_agent.py lines
138-147 (re.IGNORECASE).  Note how the alternation binds: the lookbehind
`(?<!\d{4}[-.\s])` guards only the US-format alternative and the three
trailing negative lookaheads attach only to the `tel:` alternative. -/
def phoneRE : RE := RE.alts [
  .seq [.nlb 5 (.seq [.repG isDigitCh 4 (some 4), .cls sepCls]), usFormatRE],
  generalPhoneRE,
  .seq [telLinkRE,
        .nla (.seq [.cls sepCls, .repG isDigitCh 2 (some 2)]),
        .nla (.seq [.repG pySpace 0 none,
                    .alt (.litsCI "BC") (.litsCI "AD"), .wb]),
        .nla (.seq [.repG pySpace 0 none,
                    .alt (.lits "19") (.lits "20"),
                    .repG isDigitCh 2 (some 2)])]]

/-- `\b[A-Za-z0-9._%+-]+@[A-Za-z0-9.-]+\.[A-Za-z]{2,}\b` (line 163). -/
def emailLocalCls (c : Char) : Bool :=
  isAlphaCh c || isDigitCh c || c = '.' || c = '_' || c = '%' || c = '+' || c = '-'

def emailDomCls (c : Char) : Bool :=
  isAlphaCh c || isDigitCh c || c = '.' || c = '-'

def emailRE : RE := .seq [
  .wb, .repG emailLocalCls 1 none, .chr '@', .repG emailDomCls 1 none,
  .chr '.', .repG isAlphaCh 2 none, .wb]

/-- `^\d+\s+\w+` (anchored; line 172). -/
def startNumWordRE : RE :=
  .seq [.repG isDigitCh 1 none, .repG pySpace 1 none, .cls isWordCh]

/-- `\b(St|Ave|...|Square)\b` with IGNORECASE (line 173). -/
def streetTypesRE : RE := .seq [
  .wb,
  .group 1 (RE.alts [.litsCI "St", .litsCI "Ave", .litsCI "Rd", .litsCI "Blvd",
    .litsCI "Ln", .litsCI "Cir", .litsCI "Dr", .litsCI "Ct", .litsCI "Pl",
    .litsCI "Sq", .litsCI "Street", .litsCI "Avenue", .litsCI "Road",
    .litsCI "Boulevard", .litsCI "Lane", .litsCI "Circle", .litsCI "Drive",
    .litsCI "Court", .litsCI "Place", .litsCI "Square"]),
  .wb]

/-- `\b\d{5}(?:-\d{4})?\b` — US ZIP (line 174). -/
def zipRE : RE := .seq [
  .wb, .repG isDigitCh 5 (some 5),
  .opt (.seq [.chr '-', .repG isDigitCh 4 (some 4)]), .wb]

/-- `\b[A-Za-z]\d[A-Za-z]\s*\d[A-Za-z]\d\b` — Canadian postal code (175). -/
def canadianRE : RE := .seq [
  .wb, .cls isAlphaCh, .cls isDigitCh, .cls isAlphaCh, .repG pySpace 0 none,
  .cls isDigitCh, .cls isAlphaCh, .cls isDigitCh, .wb]

/-- `\b(PO Box|P.O. Box)\b` with IGNORECASE (line 176); the dots are
unescaped and hence wildcards. -/
def poBoxRE : RE := .seq [
  .wb,
  .group 1 (.alt (.litsCI "PO Box")
                 (.seq [.litsCI "P", .cls anyNoNL, .litsCI "O", .cls anyNoNL,
                        .litsCI " Box"])),
  .wb]

/-- `^\*\*\w+\s+Address\*\*` with IGNORECASE (anchored; line 177). -/
def boldAddrRE : RE := .seq [
  .lits "**", .repG isWordCh 1 none, .repG pySpace 1 none,
  .litsCI "Address", .lits "**"]

/-- `\d+\s+\w+` (unanchored; lines 172's cousin used at line 217). -/
def digitWordRE : RE :=
  .seq [.repG isDigitCh 1 none, .repG pySpace 1 none, .cls isWordCh]

/-- `re.fullmatch(r'[-*\s]+', line)` — a pure punctuation/markdown line. -/
def markerOnly (l : List Char) : Bool :=
  fullMatchCls (fun c => c = '-' || c = '*' || pySpace c) l

/-! ### `extract_contacts_from_markdown`
(src/agents/resource_agent.py lines 97-223; identical copy in
src/agents/enhanced_resource_agent.py lines 35-161) -/

/-- Python `re.findall` for a pattern with exactly one capturing group:
the result list holds the *group* texts, `''` where the group did not
participate in the match. -/
def findallGroup1 (r : RE) (s : List Char) : List (List Char) :=
  (reFindAll r s).map (fun m => capOf m.2.2 1)

/-- Python `re.findall` for a pattern with no capturing group: the full
match texts. -/
def findallFull (r : RE) (s : List Char) : List (List Char) :=
  (reFindAll r s).map (fun m => pySlice s m.1 m.2.1)

/-- `re.sub(r'[-.\s\(\)]', '', phone_str).strip()`. -/
def cleanPhone (s : List Char) : List Char :=
  pyStrip (s.filter (fun c =>
    !(c = '-' || c = '.' || pySpace c || c = '(' || c = ')')))

/-- `len(re.sub(r'\D', '', cleaned_phone))`. -/
def digitCount (s : List Char) : Nat := (s.filter isDigitCh).length

/-- `re.fullmatch(r'\d{4}', s)` / `re.fullmatch(r'\d{6}', s)`. -/
def allDigitsLen (n : Nat) (s : List Char) : Bool :=
  s.all isDigitCh && s.length = n

/-- The emergency-phone candidates in scan order, before deduplication
(lines 127-133). -/
def emergencyCandidates (t : List Char) : List (List Char) :=
  ((findallGroup1 emergencyPhoneRE t).map cleanPhone).filter
    (fun c => digitCount c ≥ 7)

/-- `extracted_contacts["emergency_phone"]` (line 134). -/
def emergencyList (t : List Char) : List (List Char) :=
  pyDedup (emergencyCandidates t)

/-- The standard-phone candidates in scan order, before deduplication
(lines 148-157): length / 4-or-6-digit filters plus exclusion of numbers
already captured as emergency phones. -/
def phoneCandidates (t : List Char) : List (List Char) :=
  ((findallGroup1 phoneRE t).map cleanPhone).filter
    (fun c => (digitCount c ≥ 7 && !(allDigitsLen 4 c || allDigitsLen 6 c))
              && !(emergencyList t).contains c)

/-- `extracted_contacts["phone"]` (line 159). -/
def phoneList (t : List Char) : List (List Char) :=
  pyDedup (phoneCandidates t)

/-- The email matches in scan order (line 164). -/
def emailCandidates (t : List Char) : List (List Char) :=
  findallFull emailRE t

def emailList (t : List Char) : List (List Char) :=
  pyDedup (emailCandidates t)

/-- Is a (stripped) line an address-start candidate (lines 172-178)? -/
def isAddressStart (l : List Char) : Bool :=
  (reMatchAt startNumWordRE l 0).isSome ||
  reTest streetTypesRE l ||
  reTest zipRE l ||
  reTest canadianRE l ||
  reTest poBoxRE l ||
  (reMatchAt boldAddrRE l 0).isSome

/-- The `address_candidates` accumulation loop (lines 167-184). -/
def addressCandidates (t : List Char) : List (List Char) :=
  (splitLines t).foldl (fun acc line =>
    let cl := pyStrip line
    if isAddressStart cl then acc ++ [cl]
    else if !acc.isEmpty && !cl.isEmpty && !markerOnly cl then
      if (reMatchAt (.cls isWordCh) cl 0).isSome ||
         reTest (.seq [.cls isAlphaCh, .wb]) cl then acc ++ [cl]
      else acc
    else acc) []

/-- `" ".join(block)`. -/
def joinSpace (b : List (List Char)) : List Char :=
  match b with
  | [] => []
  | l :: rest => rest.foldl (fun acc x => acc ++ ' ' :: x) l

/-- The consecutive-line grouping loop (lines 187-207) producing
`compiled_addresses`. -/
def compiledAddresses (t : List Char) : List (List Char) :=
  let step := fun (st : List (List Char) × List (List Char)) line =>
    let (blocks, cur) := st
    if !line.isEmpty && !markerOnly line then
      if cur.isEmpty || !(pyStrip (cur.getLastD [])).isEmpty then
        (blocks, cur ++ [line])
      else
        (blocks ++ [joinSpace cur], [line])
    else
      (if cur.isEmpty then blocks else blocks ++ [joinSpace cur], [])
  let (blocks, cur) := (addressCandidates t).foldl step ([], [])
  if cur.isEmpty then blocks else blocks ++ [joinSpace cur]

/-- The refinement pass (lines 210-220) producing `final_addresses`
in scan order, before deduplication. -/
def finalAddresses (t : List Char) : List (List Char) :=
  (compiledAddresses t).flatMap (fun addr =>
    ((splitGap addr).map pyStrip).filter (fun cp =>
      cp.length > 15 &&
      (reTest digitWordRE cp || reTest poBoxRE cp || reTest canadianRE cp)))

def addressList (t : List Char) : List (List Char) :=
  pyDedup (finalAddresses t)

/-- The `ContactRecord` of the spec (§3): the dictionary returned by
`extract_contacts_from_markdown`. -/
structure Contacts where
  phone : List (List Char)
  emergency_phone : List (List Char)
  email : List (List Char)
  address : List (List Char)
deriving Repr, DecidableEq

/-- `extract_contacts_from_markdown(markdown_text)` (lines 97-223). -/
def extract_contacts_from_markdown (md : String) : Contacts :=
  if md.data.isEmpty then
    { phone := [], emergency_phone := [], email := [], address := [] }
  else
    { phone := phoneList md.data
      emergency_phone := emergencyList md.data
      email := emailList md.data
      address := addressList md.data }

/-! ### Python / JSON values

`JVal` models the values flowing through the orchestrator: JSON-decoded
collaborator output, `query_info` dictionaries and agent responses.
Numbers are rationals (Python's int/float distinction is not observable in
any claim); dicts are association lists with unique keys, first-match
lookup and replace-in-place update, mirroring insertion-ordered Python
dicts. -/

inductive JVal where
  | jnull : JVal
  | jbool (b : Bool) : JVal
  | jnum (q : ℚ) : JVal
  | jstr (s : String) : JVal
  | jarr (l : List JVal) : JVal
  | jobj (l : List (String × JVal)) : JVal
deriving Repr

abbrev JObj := List (String × JVal)

/-- Python truthiness. -/
def truthy : JVal → Bool
  | .jnull => false
  | .jbool b => b
  | .jnum q => q ≠ 0
  | .jstr s => s ≠ ""
  | .jarr l => !l.isEmpty
  | .jobj l => !l.isEmpty

/-- Python `==`.  Scalars follow Python (bools compare as 0/1 against
numbers); container comparisons yield `false`, which agrees with Python on
every comparison the source performs, since each of them has a string on
one side (`== "null"`, `== "fire"`, `== "Open"`, `.get('url') == url`,
list membership against a string needle). -/
def jvEq : JVal → JVal → Bool
  | .jnull, .jnull => true
  | .jbool a, .jbool b => a == b
  | .jbool a, .jnum q => (if a then (1 : ℚ) else 0) = q
  | .jnum q, .jbool a => q = (if a then (1 : ℚ) else 0)
  | .jnum a, .jnum b => a = b
  | .jstr a, .jstr b => a = b
  | _, _ => false

/-- `d[k]`-style first-match lookup. -/
def jget (o : JObj) (k : String) : Option JVal :=
  (o.find? (fun p => p.1 = k)).map (·.2)

/-- `d.get(k, default)`. -/
def jgetD (o : JObj) (k : String) (d : JVal) : JVal := (jget o k).getD d

/-- `d[k] = v`: replace in place if present, else append. -/
def jset (o : JObj) (k : String) (v : JVal) : JObj :=
  if (o.find? (fun p => p.1 = k)).isSome then
    o.map (fun p => if p.1 = k then (k, v) else p)
  else o ++ [(k, v)]

/-- Append elements to a list-valued entry (`d[k].append(x)` /
`d[k].extend(xs)`; the call sites guarantee the entry is a list). -/
def jpush (o : JObj) (k : String) (vs : List JVal) : JObj :=
  match jget o k with
  | some (.jarr l) => jset o k (.jarr (l ++ vs))
  | _ => o

/-! ### Python runtime errors -/

inductive PyErr where
  | keyError (k : String) : PyErr
  | typeError : PyErr
  | attributeError : PyErr
  | raised : PyErr
deriving Repr, DecidableEq

abbrev PyResult (α : Type) := Except PyErr α

/-- `str(e)` for an exception (only ever used inside response text on
dead or claim-irrelevant paths). -/
def pyErrStr : PyErr → String
  | .keyError k => "'" ++ k ++ "'"
  | .typeError => "TypeError"
  | .attributeError => "AttributeError"
  | .raised => "collaborator error"

/-- Python `needle in container` (raises `TypeError` on non-containers). -/
def pyIn (needle : String) : JVal → PyResult Bool
  | .jstr s => .ok (strContains s.data needle.data)
  | .jarr l => .ok (l.any (fun x => jvEq x (.jstr needle)))
  | .jobj o => .ok (o.any (fun p => p.1 = needle))
  | _ => .error .typeError

/-- Python `v.get(k, default)` (raises `AttributeError` on non-dicts). -/
def pyDotGet (v : JVal) (k : String) (d : JVal) : PyResult JVal :=
  match v with
  | .jobj o => .ok (jgetD o k d)
  | _ => .error .attributeError

/-- Python `v[k]` for a string key. -/
def pyIndex (v : JVal) (k : String) : PyResult JVal :=
  match v with
  | .jobj o =>
    match jget o k with
    | some w => .ok w
    | none => .error (.keyError k)
  | _ => .error .typeError

/-- Python `v.upper()` (`AttributeError` on non-strings); the result value
is never observed by a claim, only the error-or-not. -/
def pyUpperV : JVal → PyResult String
  | .jstr s => .ok ⟨s.data.map (fun c =>
      if 'a' ≤ c && c ≤ 'z' then Char.ofNat (c.toNat - 32) else c)⟩
  | _ => .error .attributeError

/-- Python `v.lower()` (`AttributeError` on non-strings). -/
def pyLowerV : JVal → PyResult String
  | .jstr s => .ok ⟨lowerStr s.data⟩
  | _ => .error .attributeError

/-- Best-effort Python `str()` of a number: integers print bare,
terminating decimals print as decimals (all numeric literals of the
source are of these forms); only used to build text. -/
def ratStr (q : ℚ) : String :=
  if q.den = 1 then toString q.num
  else
    let rec tryPow (k : Nat) : String :=
      match k with
      | 0 => toString q.num ++ "/" ++ toString q.den
      | k + 1 =>
        if (10 ^ (21 - (k + 1)) : Nat) % q.den = 0 then
          let scale : Nat := (10 ^ (21 - (k + 1)) : Nat) / q.den
          let scaled : Int := q.num * scale
          let digits : Nat := 21 - (k + 1)
          let a := scaled.natAbs
          let ip := a / 10 ^ digits
          let fp := a % 10 ^ digits
          let fpStr := toString fp
          let pad := String.mk (List.replicate (digits - fpStr.length) '0')
          (if scaled < 0 then "-" else "") ++ toString ip ++ "." ++ pad ++ fpStr
        else tryPow k
    tryPow 20

mutual
/-- Best-effort Python `repr()`; containers only ever feed prompt text. -/
def pyRepr : JVal → String
  | .jnull => "None"
  | .jbool true => "True"
  | .jbool false => "False"
  | .jnum q => ratStr q
  | .jstr s => "'" ++ s ++ "'"
  | .jarr l => "[" ++ String.intercalate ", " (pyReprList l) ++ "]"
  | .jobj l => "\x7b" ++ String.intercalate ", " (pyReprObj l) ++ "\x7d"

def pyReprList : List JVal → List String
  | [] => []
  | x :: xs => pyRepr x :: pyReprList xs

def pyReprObj : List (String × JVal) → List String
  | [] => []
  | (k, v) :: xs => ("'" ++ k ++ "': " ++ pyRepr v) :: pyReprObj xs
end

/-- Python `str()` as used by f-strings. -/
def pyStr : JVal → String
  | .jstr s => s
  | v => pyRepr v

mutual
/-- Best-effort `json.dumps` with default separators; the output is only
ever fed to oracle collaborators or re-parsed on paths no claim takes. -/
def jdump : JVal → String
  | .jnull => "null"
  | .jbool true => "true"
  | .jbool false => "false"
  | .jnum q => ratStr q
  | .jstr s => "\"" ++ s ++ "\""
  | .jarr l => "[" ++ String.intercalate ", " (jdumpList l) ++ "]"
  | .jobj l => "\x7b" ++ String.intercalate ", " (jdumpObj l) ++ "\x7d"

def jdumpList : List JVal → List String
  | [] => []
  | x :: xs => jdump x :: jdumpList xs

def jdumpObj : List (String × JVal) → List String
  | [] => []
  | (k, v) :: xs => ("\"" ++ k ++ "\": " ++ jdump v) :: jdumpObj xs
end

/-! ### String-level helpers on Lean `String` -/

def sContains (s pat : String) : Bool := strContains s.data pat.data

def sLower (s : String) : String := ⟨lowerStr s.data⟩

def sStrip (s : String) : String := ⟨pyStrip s.data⟩

/-- `any(word in text for word in ws)`. -/
def anyIn (text : String) (ws : List String) : Bool :=
  ws.any (fun w => sContains text w)

/-! ### Orchestrator static data (src/agents/orchestrator.py lines 23-75) -/

/-- `LOCAL_EMERGENCY_CONTACTS[key]`; every access in the source uses a
literal key that is present. -/
def LOCAL_EMERGENCY_CONTACTS : String → JObj
  | "general" => [("name", .jstr "Emergency Services"), ("number", .jstr "911")]
  | "police" => [("name", .jstr "Police Department"), ("number", .jstr "911")]
  | "fire" => [("name", .jstr "Fire Department"), ("number", .jstr "911")]
  | "medical" => [("name", .jstr "Emergency Medical Services"), ("number", .jstr "911")]
  | "poison" => [("name", .jstr "Poison Control"), ("number", .jstr "1-800-222-1222")]
  | "disaster" => [("name", .jstr "FEMA Helpline"), ("number", .jstr "1-800-621-3362")]
  | "crisis" => [("name", .jstr "Crisis Text Line"), ("number", .jstr "Text HOME to 741741")]
  | _ => []

def LOCAL_SAFETY_INSTRUCTIONS : List (String × List String) := [
  ("flood", [
    "Move to higher ground immediately",
    "Do not walk through moving water",
    "Do not drive through flooded areas",
    "Follow evacuation orders from authorities"]),
  ("fire", [
    "Evacuate immediately if authorities order it",
    "Cover nose and mouth with a wet cloth",
    "Test doorknobs and spaces around doors before opening",
    "Use stairs instead of elevators",
    "If trapped, signal for help from a window"]),
  ("earthquake", [
    "Drop, cover, and hold on",
    "If indoors, stay away from windows",
    "If outdoors, move to a clear area away from buildings",
    "After shaking stops, check for injuries and damage",
    "Be prepared for aftershocks"]),
  ("hurricane", [
    "Follow evacuation orders from local authorities",
    "Secure your home and property",
    "Have emergency supplies ready",
    "Stay indoors during the storm",
    "Avoid flooded areas during and after the storm"]),
  ("tornado", [
    "Seek shelter in a basement or interior room on the lowest floor",
    "Stay away from windows and outside walls",
    "Cover your head and neck with arms",
    "If caught outside, lie flat in a nearby ditch or depression",
    "Do not try to outrun a tornado in a vehicle"]),
  ("general", [
    "Call 911 for immediate life-threatening emergencies",
    "Follow instructions from local authorities",
    "Have emergency supplies prepared",
    "Stay informed through official channels",
    "Help others if you can do so safely"])]

def generalInstructions : List String :=
  (((LOCAL_SAFETY_INSTRUCTIONS.find? (fun p => p.1 = "general")).map (·.2)).getD [])

/-- `LOCAL_SAFETY_INSTRUCTIONS.get(crisis_type, LOCAL_SAFETY_INSTRUCTIONS["general"])`:
dict lookup with a `JVal` key; unhashable keys (lists/dicts) raise
`TypeError`, any other non-matching key falls back to the default. -/
def safetyInstructionsGet : JVal → PyResult (List String)
  | .jarr _ => .error .typeError
  | .jobj _ => .error .typeError
  | .jstr s =>
    .ok (((LOCAL_SAFETY_INSTRUCTIONS.find? (fun p => p.1 = s)).map (·.2)).getD
      generalInstructions)
  | _ => .ok generalInstructions

/-! ### `orchestrator_local_process_query` (orchestrator.py lines 106-200) -/

def alphaSpaceCls (c : Char) : Bool := isAlphaCh c || pySpace c

def alnumSpaceCls (c : Char) : Bool := isAlphaCh c || isDigitCh c || pySpace c

/-- `r'in ([A-Za-z\s]+),\s*([A-Za-z\s]+)'`. -/
def locPat1 : RE := .seq [
  .lits "in ", .group 1 (.repG alphaSpaceCls 1 none), .chr ',',
  .repG pySpace 0 none, .group 2 (.repG alphaSpaceCls 1 none)]

/-- `r'at ([A-Za-z0-9\s]+)'`. -/
def locPat2 : RE := .seq [.lits "at ", .group 1 (.repG alnumSpaceCls 1 none)]

/-- `r'near ([A-Za-z\s]+)'`. -/
def locPat3 : RE := .seq [.lits "near ", .group 1 (.repG alphaSpaceCls 1 none)]

/-- `r'([A-Za-z\s]+) area'`. -/
def locPat4 : RE := .seq [.group 1 (.repG alphaSpaceCls 1 none), .lits " area"]

/-- The location-pattern loop (lines 136-151): patterns tried in fixed
priority order against the *original* query, first match wins. -/
def localLocation (query : String) : Option String :=
  match reSearch locPat1 query.data with
  | some (_, _, cp) =>
    some (⟨pyStrip (capOf cp 1)⟩ ++ ", " ++ ⟨pyStrip (capOf cp 2)⟩)
  | none =>
    match reSearch locPat2 query.data with
    | some (_, _, cp) => some ⟨pyStrip (capOf cp 1)⟩
    | none =>
      match reSearch locPat3 query.data with
      | some (_, _, cp) => some ⟨pyStrip (capOf cp 1)⟩
      | none =>
        match reSearch locPat4 query.data with
        | some (_, _, cp) => some ⟨pyStrip (capOf cp 1)⟩
        | none => none

/-- The `crisis_keywords` table, in dict insertion order (lines 154-162). -/
def crisisKeywords : List (String × List String) := [
  ("flood", ["flood", "flooding", "water rising", "submerged"]),
  ("fire", ["fire", "burning", "flames", "smoke", "wildfire"]),
  ("earthquake", ["earthquake", "tremor", "shaking", "quake"]),
  ("hurricane", ["hurricane", "cyclone", "storm", "typhoon"]),
  ("tornado", ["tornado", "twister", "funnel cloud"]),
  ("medical", ["injured", "hurt", "medical", "bleeding", "wound", "heart attack", "stroke"]),
  ("general", ["emergency", "help", "danger", "disaster", "trapped", "stuck"])]

/-- The initial `result` dict of the local analysis (lines 119-133). -/
def localBase (query : String) : JObj := [
  ("original_query", .jstr query),
  ("processed", .jbool true),
  ("location", .jnull),
  ("needs_location_prompt", .jbool true),
  ("crisis_type", .jstr "unknown"),
  ("urgency_level", .jstr "high"),
  ("specific_requests", .jarr []),
  ("needs_medical", .jbool false),
  ("needs_evacuation", .jbool false),
  ("needs_supplies", .jbool false),
  ("has_dependents", .jbool false),
  ("extracted_keywords", .jarr []),
  ("potential_resources_needed", .jarr [])]

/-- The location-pattern step (lines 136-151). -/
def localLocStep (query : String) (r : JObj) : JObj :=
  match localLocation query with
  | some loc =>
    jset (jset r "location" (.jstr loc)) "needs_location_prompt" (.jbool false)
  | none => r

/-- The crisis-type step (lines 154-167). -/
def localCrisisStep (query_lower : String) (r : JObj) : JObj :=
  match crisisKeywords.find? (fun p => anyIn query_lower p.2) with
  | some p => jset r "crisis_type" (.jstr p.1)
  | none => r

/-- The medical-needs step (lines 170-173). -/
def localMedicalStep (query_lower : String) (r : JObj) : JObj :=
  if anyIn query_lower ["medical", "ambulance", "doctor", "nurse",
      "injured", "hurt", "wound", "bleeding", "pain"] then
    jpush (jpush (jset r "needs_medical" (.jbool true))
        "extracted_keywords" [.jstr "medical"])
      "potential_resources_needed" [.jstr "medical assistance"]
  else r

/-- The evacuation-needs step (lines 175-178). -/
def localEvacStep (query_lower : String) (r : JObj) : JObj :=
  if anyIn query_lower ["evacuate", "evacuation", "leave", "escape",
      "flee", "get out"] then
    jpush (jpush (jset r "needs_evacuation" (.jbool true))
        "extracted_keywords" [.jstr "evacuation"])
      "potential_resources_needed" [.jstr "evacuation assistance"]
  else r

/-- The supplies-needs step (lines 180-183). -/
def localSuppliesStep (query_lower : String) (r : JObj) : JObj :=
  if anyIn query_lower ["water", "food", "supplies", "blankets",
      "shelter", "clothing"] then
    jpush (jpush (jset r "needs_supplies" (.jbool true))
        "extracted_keywords" [.jstr "supplies"])
      "potential_resources_needed" [.jstr "food", .jstr "water", .jstr "shelter"]
  else r

/-- The dependents step (lines 185-187). -/
def localDependentsStep (query_lower : String) (r : JObj) : JObj :=
  if anyIn query_lower ["child", "children", "baby", "elderly",
      "disabled", "pet", "dog", "cat"] then
    jpush (jset r "has_dependents" (.jbool true))
      "extracted_keywords" [.jstr "dependents"]
  else r

/-- The urgency step (lines 190-198). -/
def localUrgencyStep (query_lower : String) (r : JObj) : JObj :=
  if anyIn query_lower ["immediately", "emergency", "urgent",
      "critical", "life-threatening", "danger", "dying", "trapped"] then
    jset r "urgency_level" (.jstr "high")
  else if anyIn query_lower ["soon", "worried", "concerned", "help",
      "assistance", "need"] then
    jset r "urgency_level" (.jstr "medium")
  else jset r "urgency_level" (.jstr "low")

/-- `orchestrator_local_process_query(query)` (lines 106-200): pure
keyword / regex analysis, never raises. -/
def orchestrator_local_process_query (query : String) : JObj :=
  let query_lower := sLower query
  localUrgencyStep query_lower
    (localDependentsStep query_lower
      (localSuppliesStep query_lower
        (localEvacStep query_lower
          (localMedicalStep query_lower
            (localCrisisStep query_lower
              (localLocStep query (localBase query)))))))

/-! ### `orchestrator_generate_local_response` (orchestrator.py lines 202-314)
The FallbackResponder of the spec (§4.6): pure and deterministic — its
definition takes no collaborator record, so it can perform no collaborator
call.  It can raise on malformed input, though only for some shapes: an
unhashable `crisis_type` (a list or a dict) raises `TypeError` at the dict
lookup of line 238/293 under rescue / information intent, and a
non-iterable one (`None`, a number, a bool) raises at the membership test
`"medical" in crisis_type` of line 263 when the resource branch reaches
that test; hashable non-strings pass `.get` and return normally under
rescue / information intent. -/

/-- `f"{i}. {instruction}\n"` accumulation over `enumerate(instructions, 1)`. -/
def numberedLines (l : List String) : String :=
  String.join (l.enum.map (fun p => toString (p.1 + 1) ++ ". " ++ p.2 ++ "\n"))

def contactName (c : JObj) : String := pyStr (jgetD c "name" .jnull)

def contactNumber (c : JObj) : String := pyStr (jgetD c "number" .jnull)

def localFallbackNote : String :=
  "\n\n[Note: This response was generated using local emergency protocols due to connection issues.]"

/-- The `intent == "rescue"` branch (lines 229-249). -/
def genRescueBranch (location crisis_type : JVal) :
    PyResult (String × JObj) := do
  let r := "EMERGENCY RESCUE INFORMATION:\n\n" ++
    (if truthy location then
      "For your location (" ++ pyStr location ++
        "), please follow these safety instructions:\n\n"
     else "Please follow these general safety instructions:\n\n")
  let safety_instructions ← safetyInstructionsGet crisis_type
  let r := r ++ numberedLines safety_instructions ++
    "\nContact emergency services immediately: " ++
    contactNumber (LOCAL_EMERGENCY_CONTACTS "general")
  pure (r, ([
    ("emergency_type", crisis_type),
    ("location", location),
    ("safety_instructions", .jarr (safety_instructions.map .jstr)),
    ("emergency_contact", .jobj (LOCAL_EMERGENCY_CONTACTS "general"))] : JObj))

/-- The `intent == "resource"` branch (lines 251-282). -/
def genResourceBranch (query_lower : String) (query_info : JObj)
    (location crisis_type : JVal) : PyResult (String × JObj) := do
  let r := "EMERGENCY RESOURCE INFORMATION:\n\n" ++
    (if truthy location then
      "For resources in " ++ pyStr location ++
        ", please contact the following services:\n\n"
     else "Please contact the following emergency services:\n\n")
  let relevant_contacts ←
    if jvEq crisis_type (.jstr "fire") then
      pure [LOCAL_EMERGENCY_CONTACTS "fire"]
    else if truthy (jgetD query_info "needs_medical" (.jbool false)) then
      pure [LOCAL_EMERGENCY_CONTACTS "medical"]
    else do
      let medIn ← pyIn "medical" crisis_type
      if medIn then pure [LOCAL_EMERGENCY_CONTACTS "medical"]
      else pure [LOCAL_EMERGENCY_CONTACTS "general"]
  let relevant_contacts := relevant_contacts ++
    (if sContains query_lower "poison" then [LOCAL_EMERGENCY_CONTACTS "poison"] else []) ++
    (if sContains query_lower "disaster" then [LOCAL_EMERGENCY_CONTACTS "disaster"] else []) ++
    (if sContains query_lower "crisis" || sContains query_lower "mental" then
      [LOCAL_EMERGENCY_CONTACTS "crisis"] else [])
  let r := r ++ String.join (relevant_contacts.map (fun c =>
    "- " ++ contactName c ++ ": " ++ contactNumber c ++ "\n"))
  pure (r, ([
    ("resource_type", crisis_type),
    ("location", location),
    ("emergency_contacts", .jarr (relevant_contacts.map .jobj))] : JObj))

/-- The `else` (information) branch (lines 284-303). -/
def genInformationBranch (location crisis_type : JVal) :
    PyResult (String × JObj) := do
  let r := "EMERGENCY INFORMATION:\n\n" ++
    (if truthy location then
      "Information for " ++ pyStr crisis_type ++ " emergency in " ++
        pyStr location ++ ":\n\n"
     else "General information for " ++ pyStr crisis_type ++ " emergency:\n\n")
  let safety_instructions ← safetyInstructionsGet crisis_type
  let r := r ++ numberedLines safety_instructions ++
    "\nFor more information, contact: " ++
    contactName (LOCAL_EMERGENCY_CONTACTS "general") ++ " at " ++
    contactNumber (LOCAL_EMERGENCY_CONTACTS "general")
  pure (r, ([
    ("information_type", crisis_type),
    ("location", location),
    ("safety_instructions", .jarr (safety_instructions.map .jstr))] : JObj))

def orchestrator_generate_local_response (query : String) (query_info : JObj) :
    PyResult JObj := do
  let query_lower := sLower query
  let crisis_type := jgetD query_info "crisis_type" (.jstr "general")
  let location := jgetD query_info "location" (.jstr "your area")
  let intent :=
    if anyIn query_lower ["help", "emergency", "trapped", "hurt", "injured",
        "danger", "save", "rescue"] then "rescue"
    else if anyIn query_lower ["where", "location", "find", "need", "supplies",
        "resource", "contact", "shelter"] then "resource"
    else "information"
  let (response, structured_data) ←
    if intent = "rescue" then genRescueBranch location crisis_type
    else if intent = "resource" then
      genResourceBranch query_lower query_info location crisis_type
    else genInformationBranch location crisis_type
  let response := response ++ localFallbackNote
  pure [
    ("response", .jstr response),
    ("intent", .jstr intent),
    ("query_info", .jobj query_info),
    ("agent_data", .jobj structured_data),
    ("used_local_fallback", .jbool true)]

/-! ### Collaborator boundary

Modelled from the spec: the external capabilities of §6 — `runInference`
(reached through `utils.ai_helpers.call_cerebras_api`, a repository module
not under src/), `json.loads` / `json.dumps` (stdlib), `searchWeb` (exa),
`fetchPage` (crawl4ai) and the per-agent chat clients — are oracle fields
of `Collab`.  `notifyProgress` callbacks are fire-and-forget (§6) and are
modelled as no-ops; f-string callback arguments whose evaluation can raise
are still evaluated. -/

/-- Outcome of `call_cerebras_api(prompt)`: a string, `None`, or a raised
exception. -/
inductive InfResult where
  | ret (s : String) : InfResult
  | retNone : InfResult
  | throw : InfResult

/-- Outcome of a crawl (`AsyncWebCrawler.arun`): markdown content, a
falsy/empty result, or a raised exception. -/
inductive FetchResult where
  | content (md : String) : FetchResult
  | noContent : FetchResult
  | throw (msg : String) : FetchResult

/-- One formatted web-search result (title/url/snippet), as produced by
`search_web`. -/
structure SearchHit where
  title : String
  url : String
  snippet : String

structure Collab where
  /-- `utils.ai_helpers.call_cerebras_api` (spec §6 `runInference`). -/
  inference : String → InfResult
  /-- `json.loads`: `none` models a raised `JSONDecodeError`. -/
  jparse : String → Option JVal
  /-- `time.time()`. -/
  now : ℚ
  /-- Observable behaviour of `search_web` (resource_agent.py lines
  310-353): that function catches every exception and returns a (possibly
  empty) list of title/url/snippet records, so any list is a faithful
  outcome. -/
  search : String → Nat → List SearchHit
  /-- Is `crawl4ai.AsyncWebCrawler` importable? -/
  crawlerAvailable : Bool
  /-- `crawler.arun(url, ...)`. -/
  fetch : String → FetchResult
  /-- Is rescue_agent's module-level Cerebras client non-`None`? -/
  rescueClient : Bool
  /-- Is resource_agent's module-level Cerebras client non-`None`? -/
  resourceClient : Bool
  /-- resource_agent's `client.chat.completions.create(...)` content;
  `none` models an exception (caught by its `ask_ai`) or a `None` content. -/
  resourceAI : String → Option String
  /-- Is information_agent's module-level Cerebras client non-`None`? -/
  infoClient : Bool
  /-- information_agent's chat call, as for `resourceAI`. -/
  infoAI : String → Option String

/-! ### `extract_json_from_string` (orchestrator.py lines 77-103; identical
copies in resource_agent.py lines 36-62 and information_agent.py 15-41) -/

def extract_json_from_string (C : Collab) (text : String) : Option JVal :=
  if text = "" then none
  else
    match pyFindChar text.data '{', pyRFindChar text.data '}' with
    | some start_brace, some end_brace =>
      C.jparse ⟨pySlice text.data start_brace (end_brace + 1)⟩
    | _, _ => none

/-! ### `cerebras_llama_call` (orchestrator.py lines 316-360) -/

def defaultRescueJson : String :=
  "\x7b\"intent\": \"rescue\", \"confidence\": 90, \"reasoning\": \"Error occurred, defaulting to rescue for safety\"\x7d"

def defaultResourceJson : String :=
  "\x7b\"intent\": \"resource\", \"confidence\": 70, \"reasoning\": \"Error occurred, defaulting to resource based on keywords\"\x7d"

def defaultInformationJson : String :=
  "\x7b\"intent\": \"information\", \"confidence\": 50, \"reasoning\": \"Error occurred, defaulting to information\"\x7d"

/-- The `except` branch of `cerebras_llama_call` (lines 348-360): on any
error, return a minimal intent JSON chosen by keywords of the *original*
prompt. -/
def defaultIntentJson (prompt : String) : String :=
  let p := sLower prompt
  if sContains p "rescue" || sContains p "emergency" then defaultRescueJson
  else if sContains p "resource" || sContains p "contact" then defaultResourceJson
  else defaultInformationJson

/-- `cerebras_llama_call(prompt)` (lines 316-360).  Total: every exception
(including `call_cerebras_api` raising, and the `AttributeError` from
`None.strip()` when it returns `None`) is caught by the function's own
`except` branch. -/
def cerebras_llama_call (C : Collab) (prompt : String) : String :=
  let modified_prompt :=
    if !sContains prompt "JSON" && !sContains prompt "json" then
      prompt ++ "\n\nPlease respond with a valid JSON object."
    else prompt
  match C.inference modified_prompt with
  | .ret response_text =>
    if !pyStartsWith (pyStrip response_text.data) ['{'] then
      match extract_json_from_string C response_text with
      | some extracted_json => jdump extracted_json
      | none => response_text
    else response_text
  | .retNone => defaultIntentJson prompt
  | .throw => defaultIntentJson prompt
/-- The structured-extraction prompt of `process_query` (orchestrator.py lines 376-401), transcribed verbatim. -/
def analysisPrompt (query : String) : String :=
  "\n" ++
  "    Analyze the following emergency query and extract key information.\n" ++
  "    Your response MUST be a valid JSON object with EXACTLY these fields and no additional text:\n" ++
  "    \x7b\n" ++
  "        \"location\": \"Geographic location mentioned (be as specific as possible, or null if none)\",\n" ++
  "        \"coordinates\": \x7b\n" ++
  "            \"latitude\": \"latitude if explicitly mentioned (or null)\",\n" ++
  "            \"longitude\": \"longitude if explicitly mentioned (or null)\"\n" ++
  "        \x7d,\n" ++
  "        \"location_confidence\": Number between 0-1 indicating confidence in location detection,\n" ++
  "        \"needs_location_prompt\": Boolean true if location is missing, vague or needed for proper response,\n" ++
  "        \"crisis_type\": \"Type of emergency or disaster (flood, fire, earthquake, etc.)\",\n" ++
  "        \"urgency_level\": \"high\", \"medium\", or \"low\",\n" ++
  "        \"specific_requests\": [\"List of specific things being requested\"],\n" ++
  "        \"needs_medical\": Boolean true if medical assistance is needed,\n" ++
  "        \"needs_evacuation\": Boolean true if evacuation assistance is needed,\n" ++
  "        \"needs_supplies\": Boolean true if food/water/supplies are needed,\n" ++
  "        \"has_dependents\": Boolean true if query mentions children, elderly, or others who need help,\n" ++
  "        \"extracted_keywords\": [\"List of key terms extracted from the query\"],\n" ++
  "        \"potential_resources_needed\": [\"List of resources that might be needed based on the crisis\"]\n" ++
  "    \x7d\n" ++
  "    \n" ++
  "    Query: \"" ++
  query ++
  "\"\n" ++
  "    \n" ++
  "    JSON Response:\n" ++
  "    "

/-- The intent-classification prompt of `route_query` (orchestrator.py lines 492-511), transcribed verbatim. -/
def intentPrompt (query : String) (query_info : JObj) : String :=
  "\n" ++
  "    Analyze the following emergency query and classify its primary intent as one of these categories.\n" ++
  "    Return your answer as a JSON object with the following structure:\n" ++
  "    \x7b\n" ++
  "        \"intent\": \"rescue|resource|information\",\n" ++
  "        \"confidence\": 0-100,\n" ++
  "        \"reasoning\": \"brief explanation of classification\"\n" ++
  "    \x7d\n" ++
  "    \n" ++
  "    Where:\n" ++
  "    - \"rescue\": User needs immediate life-saving assistance\n" ++
  "    - \"resource\": User needs to locate specific resources/contacts\n" ++
  "    - \"information\": User is seeking general information or status updates\n" ++
  "    \n" ++
  "    Query: \"" ++
  query ++
  "\"\n" ++
  "    Location: " ++
  pyStr (jgetD query_info "location" (.jstr "Unknown")) ++
  "\n" ++
  "    Crisis Type: " ++
  pyStr (jgetD query_info "crisis_type" (.jstr "Unknown")) ++
  "\n" ++
  "    \n" ++
  "    JSON Response:\n" ++
  "    "

/-- The location-deconstruction prompt of `extract_coordinates_from_query` (rescue_agent.py lines 115-121). -/
def deconstructPrompt (query : String) : String :=
  "\n" ++
  "        Analyze the following emergency query and extract critical information.\n" ++
  "        Return ONLY a JSON object with keys: 'crisis_type', 'location', 'lat', 'lon'.\n" ++
  "        Use realistic latitude and longitude values for the location mentioned.\n" ++
  "        \n" ++
  "        Query: \"" ++
  query ++
  "\"\n" ++
  "        "

/-- The location prompt of `extract_location_from_query` (information_agent.py lines 173-181). -/
def infoLocationPrompt (query : String) : String :=
  "\n" ++
  "        Analyze the following query and extract location information.\n" ++
  "        Return ONLY a JSON object with keys:\n" ++
  "        - \"location_name\": The name of the location mentioned\n" ++
  "        - \"lat\": The approximate latitude as a float\n" ++
  "        - \"lon\": The approximate longitude as a float\n" ++
  "        \n" ++
  "        Query: \"" ++
  query ++
  "\"\n" ++
  "        "

/-- The needs prompt of information_agent `run` (lines 378-383). -/
def infoNeedsPrompt (query : String) : String :=
  "\n" ++
  "        Analyze this query and determine what information the user needs.\n" ++
  "        Return ONLY a JSON object with boolean keys: \"weather\", \"evacuation\", \"shelter\"\n" ++
  "        \n" ++
  "        Query: \"" ++
  query ++
  "\"\n" ++
  "        "


/-! ### `process_query` (orchestrator.py lines 362-446)

Total: `cerebras_llama_call` never raises, and every failure inside the
`try` (a JSON decode error, `json.loads` yielding a non-dict so that the
item assignment at line 419 raises `TypeError`, or a `TypeError` from
comparing a non-numeric `location_confidence` against `0.5` at line 428)
is caught and answered with `orchestrator_local_process_query`. -/

/-- Python `v < 0.5` (bools are numeric); `none` models a `TypeError`. -/
def ltHalf : JVal → Option Bool
  | .jnum q => some (Rat.blt q (mkRat 1 2))
  | .jbool b => some (!b)
  | _ => none

def process_query (C : Collab) (query : String) : JObj :=
  let response_text := cerebras_llama_call C (analysisPrompt query)
  let parsedObj : Option JObj :=
    match C.jparse response_text with
    | some (.jobj o) => some o
    | some _ => none
    | none =>
      match extract_json_from_string C response_text with
      | some (.jobj o) => some o
      | _ => none
  match parsedObj with
  | none => orchestrator_local_process_query query
  | some o =>
    let o := jset o "original_query" (.jstr query)
    let o := jset o "processed" (.jbool true)
    let o := jset o "timestamp" (.jnum C.now)
    let loc := jgetD o "location" .jnull
    if !truthy loc || jvEq loc (.jstr "null") then
      jset (jset o "location" .jnull) "needs_location_prompt" (.jbool true)
    else
      match ltHalf (jgetD o "location_confidence" (.jnum 0)) with
      | some true => jset o "needs_location_prompt" (.jbool true)
      | some false => o
      | none => orchestrator_local_process_query query

/-! ### rescue agent (src/agents/rescue_agent.py) -/

/-- rescue_agent's `ask_ai` (lines 20-49): *no* try/except — an exception
from `call_cerebras_api` propagates to the caller.  A "Simulated response
for:" prefix triggers keyword-specific canned replacements. -/
def rescue_ask_ai (C : Collab) (prompt : String) : PyResult (Option String) :=
  match C.inference prompt with
  | .throw => .error .raised
  | .retNone => .ok none
  | .ret s =>
    if pyStartsWith s.data "Simulated response for:".data then
      let p := sLower prompt
      if sContains p "location" then .ok (some "Punjab, India")
      else if sContains p "extract" && sContains p "coordinate" then
        .ok (some "31.6340, 74.8723")
      else if sContains p "safety" || sContains p "instruction" then
        .ok (some "Seek higher ground immediately. Avoid walking or driving through flood waters.")
      else .ok (some s)
    else .ok (some s)

/-- rescue_agent `get_weather_alerts` (lines 52-75): a stub returning
static data; its `try` body cannot fail. -/
def rescue_get_weather_alerts (lat lon : JVal) : JObj :=
  [("coordinates", .jobj [("lat", lat), ("lon", lon)]),
   ("alerts", .jarr []),
   ("status", .jstr "Unable to connect to weather service API")]

/-- rescue_agent `get_nasa_firms_data` (lines 77-98): static stub. -/
def rescue_get_nasa_firms_data (lat lon : JVal) : JObj :=
  [("coordinates", .jobj [("lat", lat), ("lon", lon)]),
   ("fires", .jarr []),
   ("status", .jstr "Unable to connect to FIRMS API")]

/-- `extract_coordinates_from_query` (rescue_agent.py lines 100-170).
Raises when the AI path raises (its `ask_ai` has no exception handler) or
when the parsed JSON misbehaves under the membership / index operations. -/
def extract_coordinates_from_query (C : Collab) (query : String) :
    PyResult JObj := do
  let aiResult : Option JObj ←
    if C.rescueClient then do
      let respOpt ← rescue_ask_ai C (deconstructPrompt query)
      match respOpt with
      | some response_str =>
        if response_str ≠ "" then
          match extract_json_from_string C response_str with
          | some location_info =>
            if truthy location_info then do
              let hasLat ← pyIn "lat" location_info
              if hasLat then do
                let hasLon ← pyIn "lon" location_info
                if hasLon then do
                  let lat ← pyIndex location_info "lat"
                  let lon ← pyIndex location_info "lon"
                  let nm ← pyDotGet location_info "location" (.jstr "Unknown Location")
                  let ct ← pyDotGet location_info "crisis_type" (.jstr "Unknown Crisis")
                  pure (some [("latitude", lat), ("longitude", lon),
                              ("location_name", nm), ("crisis_type", ct)])
                else pure none
              else pure none
            else pure none
          | none => pure none
        else pure none
      | none => pure none
    else pure none
  match aiResult with
  | some r => pure r
  | none =>
    let lower_query := sLower query
    let (location_name, lat, lon) :
        String × ℚ × ℚ :=
      if sContains lower_query "punjab" then
        ("Punjab, India", mkRat 311471 10000, mkRat 753412 10000)
      else if sContains lower_query "houston" then
        ("Houston, Texas, USA", mkRat 297604 10000, mkRat (-953698) 10000)
      else if sContains lower_query "miami" then
        ("Miami, Florida, USA", mkRat 257617 10000, mkRat (-801918) 10000)
      else ("Unknown Location", 0, 0)
    let crisis_type :=
      if anyIn lower_query ["flood", "flooding", "water"] then "flood"
      else if anyIn lower_query ["fire", "wildfire", "burning"] then "wildfire"
      else if anyIn lower_query ["earthquake", "quake"] then "earthquake"
      else if anyIn lower_query ["hurricane", "cyclone", "storm"] then "hurricane"
      else "Unknown Crisis"
    pure [("latitude", .jnum lat), ("longitude", .jnum lon),
          ("location_name", .jstr location_name),
          ("crisis_type", .jstr crisis_type)]
/-- The AI-extraction prompt of `crawl_and_extract_contacts_HYBRID` (resource_agent.py lines 273-290); the trailing `#` text is part of the f-string. -/
def aiExtractionPrompt (url markdown_content : String) : String :=
  "\n" ++
  "                    Analyze the following webpage content for contact information.\n" ++
  "                    Explicitly look for:\n" ++
  "                    - Standard Phone Number(s)\n" ++
  "                    - Emergency Contact Number(s) (look for terms like 'emergency', 'hotline', 'urgent', '24/7', 'rescue' nearby)\n" ++
  "                    - Email Address(es)\n" ++
  "                    - Physical Address(es)\n" ++
  "                    \n" ++
  "                    Format the output strictly as a JSON object with keys \"phone\" (list of strings), \n" ++
  "                    \"emergency_phone\" (list of strings), \"email\" (list of strings), and \n" ++
  "                    \"address\" (list of strings). If no information is found for a category, \n" ++
  "                    the value should be an empty list [].\n" ++
  "                    \n" ++
  "                    Return ONLY the JSON object and nothing else.\n" ++
  "                    \n" ++
  "                    Webpage Content from " ++
  url ++
  ":\n" ++
  "                    " ++
  String.mk (markdown_content.data.take 6000) ++
  "  # Pass a significant portion to the AI\n" ++
  "                    "

/-- The triage-synthesis prompt of `generate_triage_brief` (rescue_agent.py lines 228-250). -/
def rescueSynthesisPrompt (query locName lat lon crisis verified_data contactsDump : String) : String :=
  "\n" ++
  "        You are an AI disaster response assistant named C.L.A.R.I.O.N.\n" ++
  "        Provide an immediate, actionable, and life-saving brief based on the following information.\n" ++
  "        \n" ++
  "        USER'S SITUATION:\n" ++
  "        Query: \"" ++
  query ++
  "\"\n" ++
  "        Location: " ++
  locName ++
  " (" ++
  lat ++
  ", " ++
  lon ++
  ")\n" ++
  "        Crisis Type: " ++
  crisis ++
  "\n" ++
  "        \n" ++
  "        VERIFIED OFFICIAL DATA:\n" ++
  "        " ++
  verified_data ++
  "\n" ++
  "        \n" ++
  "        ACTIONABLE CONTACTS & RESOURCES:\n" ++
  "        " ++
  contactsDump ++
  "\n" ++
  "        \n" ++
  "        YOUR TASK:\n" ++
  "        Generate a final triage brief as a JSON object with the following structure:\n" ++
  "        1. \"safety_warning\": A clear, urgent warning about the immediate danger and what action to take\n" ++
  "        2. \"recommended_shelter\": Specific shelter location if available, or instructions on finding shelter\n" ++
  "        3. \"contactable_aid\": List of emergency contacts with their details\n" ++
  "        \n" ++
  "        Return ONLY the JSON object with no additional text.\n" ++
  "        "

/-- The synthesis prompt of `generate_information_response` (information_agent.py lines 247-265). -/
def infoSynthesisPrompt (query locName lat lon data_str : String) : String :=
  "\n" ++
  "        You are an AI assistant named C.L.A.R.I.O.N., helping during a climate emergency.\n" ++
  "        Generate a clear, informative response based on the following information:\n" ++
  "        \n" ++
  "        USER QUERY: \"" ++
  query ++
  "\"\n" ++
  "        \n" ++
  "        LOCATION: " ++
  locName ++
  " (Coordinates: " ++
  lat ++
  ", " ++
  lon ++
  ")\n" ++
  "        \n" ++
  "        COLLECTED DATA:\n" ++
  "        " ++
  data_str ++
  "\n" ++
  "        \n" ++
  "        Format your response as a helpful information brief with clear sections for:\n" ++
  "        - Weather alerts (if any)\n" ++
  "        - Evacuation routes (if available)\n" ++
  "        - Shelter information (if available)\n" ++
  "        - Safety recommendations\n" ++
  "        \n" ++
  "        Keep your response factual and actionable. If information is missing, acknowledge that.\n" ++
  "        "


/-! ### resource agent (src/agents/resource_agent.py) -/

/-- Python `len(v)` (raises `TypeError` on non-sized values). -/
def pyLen : JVal → PyResult Nat
  | .jarr l => .ok l.length
  | .jstr s => .ok s.data.length
  | .jobj o => .ok o.length
  | _ => .error .typeError

/-- Python iteration `for x in v` (strings iterate characters, dicts keys;
raises `TypeError` otherwise). -/
def pyIterE : JVal → PyResult (List JVal)
  | .jarr l => .ok l
  | .jstr s => .ok (s.data.map (fun c => .jstr ⟨[c]⟩))
  | .jobj o => .ok (o.map (fun p => .jstr p.1))
  | _ => .error .typeError

def padSpaces (n : Nat) : String := ⟨List.replicate n ' '⟩

mutual
/-- Best-effort `json.dumps(..., indent=2)`; only ever feeds prompt text. -/
def jdumpInd (ind : Nat) : JVal → String
  | .jarr [] => "[]"
  | .jobj [] => "\x7b\x7d"
  | .jarr l =>
    "[\n" ++ String.intercalate ",\n" (jdumpIndList (ind + 2) l) ++ "\n" ++
      padSpaces ind ++ "]"
  | .jobj l =>
    "\x7b\n" ++ String.intercalate ",\n" (jdumpIndObj (ind + 2) l) ++ "\n" ++
      padSpaces ind ++ "\x7d"
  | v => jdump v

def jdumpIndList (ind : Nat) : List JVal → List String
  | [] => []
  | x :: xs => (padSpaces ind ++ jdumpInd ind x) :: jdumpIndList ind xs

def jdumpIndObj (ind : Nat) : List (String × JVal) → List String
  | [] => []
  | (k, v) :: xs =>
    (padSpaces ind ++ "\"" ++ k ++ "\": " ++ jdumpInd ind v) :: jdumpIndObj ind xs
end

def jdumpIndent (v : JVal) : String := jdumpInd 0 v

/-- The ContactRecord dictionary as the Python code sees it. -/
def contactsToJObj (c : Contacts) : JObj :=
  [("phone", .jarr (c.phone.map (fun l => .jstr ⟨l⟩))),
   ("emergency_phone", .jarr (c.emergency_phone.map (fun l => .jstr ⟨l⟩))),
   ("email", .jarr (c.email.map (fun l => .jstr ⟨l⟩))),
   ("address", .jarr (c.address.map (fun l => .jstr ⟨l⟩)))]

/-- resource_agent's `ask_ai` (lines 64-95): catches every exception and
returns `None` when the client is missing or the call fails. -/
def resource_ask_ai (C : Collab) (prompt : String) : Option String :=
  if !C.resourceClient then none else C.resourceAI prompt

/-- `crawl_and_extract_contacts_HYBRID` (resource_agent.py lines 225-308).
Total: its `try` catches everything and converts failures into
`{"error": ...}` records.  When the deterministic pass finds no phones,
emails or emergency phones, the AI-assisted pass may replace the record
with whatever JSON the collaborator produced. -/
def crawl_and_extract_contacts_HYBRID (C : Collab) (url : String) : JVal :=
  if !C.crawlerAvailable then .jobj [("error", .jstr "crawl4ai not installed")]
  else
    match C.fetch url with
    | .throw msg => .jobj [("error", .jstr msg)]
    | .noContent => .jobj [("error", .jstr "No content found")]
    | .content markdown_content =>
      let contacts := extract_contacts_from_markdown markdown_content
      if contacts.phone.isEmpty && contacts.email.isEmpty &&
          contacts.emergency_phone.isEmpty then
        if C.resourceClient then
          match resource_ask_ai C (aiExtractionPrompt url markdown_content) with
          | some ai_extracted_str =>
            if ai_extracted_str ≠ "" then
              match extract_json_from_string C ai_extracted_str with
              | some ai_extracted =>
                if truthy ai_extracted then ai_extracted
                else .jobj (contactsToJObj contacts)
              | none => .jobj (contactsToJObj contacts)
            else .jobj (contactsToJObj contacts)
          | none => .jobj (contactsToJObj contacts)
        else .jobj (contactsToJObj contacts)
      else .jobj (contactsToJObj contacts)

/-- `crawl_and_extract_contacts_all_urls` (lines 355-380): sequential,
insertion-ordered dict keyed by URL. -/
def crawl_and_extract_contacts_all_urls (C : Collab) (urls : List String) :
    List (String × JVal) :=
  urls.foldl (fun acc url =>
    let contacts := crawl_and_extract_contacts_HYBRID C url
    if (acc.find? (fun p => p.1 = url)).isSome then
      acc.map (fun p => if p.1 = url then (url, contacts) else p)
    else acc ++ [(url, contacts)]) []

/-- The two shapes of `resource_run`'s first argument. -/
inductive QueryOrUrls where
  | query (q : String) : QueryOrUrls
  | urls (us : List String) : QueryOrUrls

/-- One `if contact_info.get(key):` display section of `resource_run`'s
formatting loop (lines 444-465). -/
def formatContactSection (contact_info : JVal) (key header : String) :
    PyResult (List String) := do
  let v ← pyDotGet contact_info key .jnull
  if truthy v then do
    let items ← pyIterE v
    pure (header :: items.map (fun x => "- " ++ pyStr x))
  else pure []

/-- The tail of `resource_run` after the URL list is settled (lines
414-500).  In the non-subroutine formatting loop, any URL whose record has
no "error" key reaches the title-search loop `for result in urls: ...
result.get('url')` over a list of *strings*, which raises
`AttributeError` on its first iteration; if every record is an error the
loop-leaked `contact_info` variable feeds `structured_data` (and is a
`NameError`, modelled as `.raised`, when no URL was processed at all). -/
def resourceRunRest (C : Collab) (urls : List String)
    (query_info : Option JObj) (is_subroutine : Bool)
    (queryOpt : Option String) : PyResult JVal := do
  let all := crawl_and_extract_contacts_all_urls C urls
  if is_subroutine then pure (.jobj all)
  else do
    let response_parts ← all.foldlM (fun (parts : List String) p => do
      let (url, contact_info) := p
      let hasErr ← pyIn "error" contact_info
      if hasErr then pure parts
      else if !urls.isEmpty then Except.error PyErr.attributeError
      else do
        let source_title := url
        let s0 := ["\n--- Contacts from " ++ source_title ++ " ---"]
        let s1 ← formatContactSection contact_info "emergency_phone" "\nEMERGENCY NUMBERS:"
        let s2 ← formatContactSection contact_info "phone" "\nOTHER CONTACT NUMBERS:"
        let s3 ← formatContactSection contact_info "email" "\nEMAIL CONTACTS:"
        let s4 ← formatContactSection contact_info "address" "\nPHYSICAL LOCATIONS:"
        pure (parts ++ s0 ++ s1 ++ s2 ++ s3 ++ s4))
      ["Here are the emergency contacts I found for you:"]
    let response_parts :=
      if response_parts.length = 1 then
        response_parts ++
          ["\nI couldn't find specific contact information for the resources. Please try contacting general emergency services or check official government websites for your location."]
      else response_parts
    let response_text := String.intercalate "\n" response_parts
    match all.getLast? with
    | none => Except.error PyErr.raised
    | some lastPair => do
      let contact_info := lastPair.2
      let ciEmergency ← pyDotGet contact_info "emergency" (.jarr [])
      let ciPhone ← pyDotGet contact_info "phone" (.jarr [])
      let ciEmail ← pyDotGet contact_info "email" (.jarr [])
      let ciAddress ← pyDotGet contact_info "address" (.jarr [])
      let ciWebsites ← pyDotGet contact_info "websites" (.jarr [])
      let structured_data : JObj := [
        ("timestamp", .jnum C.now),
        ("query", .jstr (queryOpt.getD "")),
        ("urls_searched", .jarr (urls.map .jstr)),
        ("contact_info", .jobj [
          ("emergency", ciEmergency), ("phone", ciPhone),
          ("email", ciEmail), ("address", ciAddress),
          ("websites", ciWebsites)]),
        ("resource_types", .jarr [])]
      let location :=
        match query_info with
        | some o =>
          if truthy (.jobj o) && truthy (jgetD o "location" .jnull) then
            jgetD o "location" .jnull
          else .jnull
        | none => .jnull
      let n1 ← pyLen ciEmergency
      let n2 ← pyLen ciPhone
      let n3 ← pyLen ciEmail
      let n4 ← pyLen ciAddress
      pure (.jobj [
        ("response", .jstr response_text),
        ("data", .jobj structured_data),
        ("info_type", .jstr "resource_information"),
        ("location", location),
        ("contact_count", .jnum ((n1 + n2 + n3 + n4 : Nat) : ℚ))])

/-- resource_agent `run` (lines 382-500). -/
def resource_run (C : Collab) (query_or_urls : QueryOrUrls)
    (query_info : Option JObj) (is_subroutine : Bool) : PyResult JVal := do
  match query_or_urls with
  | .query query =>
    let web_results := C.search query 3
    if web_results.isEmpty then
      if is_subroutine then pure (.jobj [])
      else pure (.jstr "I couldn't find any specific resources for your query. Please try again with more details about your location and the type of emergency.")
    else
      resourceRunRest C (web_results.map (·.url)) query_info is_subroutine
        (some query)
  | .urls us => resourceRunRest C us query_info is_subroutine none

/-! ### `generate_triage_brief` and rescue `run` (rescue_agent.py) -/

/-- Python `v.replace('_', ' ').upper()` on a `.get` result (line 410). -/
def pyReplaceUnderscoreUpper : JVal → PyResult String
  | .jstr s =>
    .ok ⟨(s.data.map (fun c => if c = '_' then ' ' else c)).map (fun c =>
      if 'a' ≤ c && c ≤ 'z' then Char.ofNat (c.toNat - 32) else c)⟩
  | _ => .error .attributeError

/-- Python list slice `v[:2]` followed by iteration (line 321). -/
def pySliceTwoIter : JVal → PyResult (List JVal)
  | .jarr l => .ok (l.take 2)
  | .jstr s => .ok ((s.data.take 2).map (fun c => .jstr ⟨[c]⟩))
  | _ => .error .typeError

/-- One contact-type block of the `contactable_aid` fallback assembly
(lines 303-325). -/
def triageContactBlock (contacts : JVal) (key : String)
    (limitTwo : Bool) : PyResult (List JVal) := do
  let v ← pyDotGet contacts key .jnull
  if truthy v then do
    let idx ← pyIndex contacts key
    let items ← if limitTwo then pySliceTwoIter idx else pyIterE idx
    pure (items.map (fun x => .jobj [("type", .jstr key), ("value", x)]))
  else pure []

/-- `generate_triage_brief` (rescue_agent.py lines 172-336).  With a live
client the AI path can raise (rescue's `ask_ai` has no handler); the
deterministic fallback can raise only through misbehaving parsed values. -/
def generate_triage_brief (C : Collab) (query : String)
    (location_data weather_data fire_data : JObj)
    (contact_info_by_url : List (String × JVal))
    (web_results : List SearchHit) : PyResult JVal := do
  let aiAttempt : Option JVal ←
    if C.rescueClient then do
      let actionable_contacts := web_results.map (fun r =>
        JVal.jobj [("name", .jstr r.title), ("link", .jstr r.url),
          ("extracted_contact",
            (((contact_info_by_url.find? (fun p => p.1 = r.url)).map (·.2)).getD
              (.jobj [])))])
      let verified_data ←
        if truthy (jgetD weather_data "alerts" .jnull) then do
          let alerts ← pyIterE (jgetD weather_data "alerts" (.jarr []))
          let alertLines ← alerts.mapM (fun a => do
            let ty ← pyDotGet a "type" .jnull
            let sev ← pyDotGet a "severity" .jnull
            let de ← pyDotGet a "description" .jnull
            pure ("- " ++ pyStr ty ++ " (" ++ pyStr sev ++ "): " ++ pyStr de))
          pure ("WEATHER ALERTS:\n" ++ String.intercalate "\n" alertLines ++ "\n\n")
        else pure ""
      let verified_data :=
        if truthy (jgetD fire_data "fires" .jnull) then
          verified_data ++ "ACTIVE FIRES DETECTED IN YOUR AREA\n\n"
        else verified_data
      let verified_data :=
        if verified_data = "" then
          "No specific alerts from official sources for your exact location."
        else verified_data
      let prompt := rescueSynthesisPrompt query
        (pyStr (jgetD location_data "location_name" .jnull))
        (pyStr (jgetD location_data "latitude" .jnull))
        (pyStr (jgetD location_data "longitude" .jnull))
        (pyStr (jgetD location_data "crisis_type" .jnull))
        verified_data (jdumpIndent (.jarr actionable_contacts))
      let finalOpt ← rescue_ask_ai C prompt
      match finalOpt with
      | some final_brief_str =>
        if final_brief_str ≠ "" then
          match extract_json_from_string C final_brief_str with
          | some final_brief =>
            if truthy final_brief then pure (some final_brief) else pure none
          | none => pure none
        else pure none
      | none => pure none
    else pure none
  match aiAttempt with
  | some brief => pure brief
  | none => do
    let crisis_type ← pyLowerV (jgetD location_data "crisis_type" (.jstr ""))
    let location_name := jgetD location_data "location_name" (.jstr "")
    let safety_warning :=
      "ATTENTION: Possible " ++ crisis_type ++ " situation reported in " ++
        pyStr location_name ++ ". " ++
      (if sContains crisis_type "flood" then
        "Seek higher ground immediately. Avoid walking or driving through flood waters."
      else if sContains crisis_type "wildfire" || sContains crisis_type "fire" then
        "If ordered to evacuate, do so immediately. Keep windows and doors closed to prevent embers from entering."
      else if sContains crisis_type "hurricane" || sContains crisis_type "cyclone" then
        "Secure your property and prepare for high winds and flooding. Follow evacuation orders if issued."
      else if sContains crisis_type "earthquake" then
        "Drop, cover, and hold on. Stay away from windows and exterior walls."
      else
        "Follow instructions from local authorities and stay tuned to emergency broadcasts.")
    let recommended_shelter :=
      "Contact local authorities for shelter locations. " ++
      "If evacuation is necessary, bring emergency supplies including water, food, medications, and important documents."
    let contactable_aid ← contact_info_by_url.foldlM
      (fun (aid : List JVal) p => do
        let (url, contacts) := p
        let source_name :=
          match web_results.find? (fun r => r.url = url) with
          | some r => r.title
          | none => url
        let hasErr ← pyIn "error" contacts
        if hasErr then pure aid
        else do
          let b1 ← triageContactBlock contacts "emergency_phone" false
          let b2 ← triageContactBlock contacts "phone" false
          let b3 ← triageContactBlock contacts "email" true
          let entryContacts := b1 ++ b2 ++ b3
          if entryContacts.isEmpty then pure aid
          else pure (aid ++ [.jobj [("name", .jstr source_name),
                                    ("contacts", .jarr entryContacts)]]))
      []
    pure (.jobj [
      ("safety_warning", .jstr safety_warning),
      ("recommended_shelter", .jstr recommended_shelter),
      ("contactable_aid", .jarr contactable_aid)])

/-- One contact line of the rescue response formatting (lines 407-411). -/
def rescueFormatContact (contact : JVal) : PyResult String := do
  let ty ← pyDotGet contact "type" (.jstr "contact")
  let tyStr ← pyReplaceUnderscoreUpper ty
  let v ← pyDotGet contact "value" (.jstr "")
  pure ("- " ++ tyStr ++ ": " ++ pyStr v)

/-- rescue_agent `run` (lines 338-443).

When `query_info` is truthy and carries a truthy `location`, the function
builds `location_data` with keys `'location_name'`, `'lat'` and `'lon'`
(lines 353-357) and then immediately evaluates
`location_data['latitude']` to start the weather task (line 367), which
raises `KeyError('latitude')` — the remote rescue tier can never complete
for a location-bearing `query_info`. -/
def rescue_run (C : Collab) (query : String) (query_info : Option JObj) :
    PyResult JVal := do
  let location_data : JObj ←
    match query_info with
    | some qi =>
      if truthy (.jobj qi) && truthy (jgetD qi "location" .jnull) then do
        let coords ← pyDotGet (jgetD qi "coordinates" (.jobj [])) "latitude" .jnull
        let coords2 ← pyDotGet (jgetD qi "coordinates" (.jobj [])) "longitude" .jnull
        pure ([("location_name", jgetD qi "location" .jnull),
               ("lat", coords), ("lon", coords2)] : JObj)
      else extract_coordinates_from_query C query
    | none => extract_coordinates_from_query C query
  -- line 364: the progress callback's f-string evaluates
  -- `location_data['location_name']` (present in both branches)
  let _locName ← pyIndex (.jobj location_data) "location_name"
  -- line 367-368: argument evaluation for the weather / fire tasks
  let latArg ← pyIndex (.jobj location_data) "latitude"
  let lonArg ← pyIndex (.jobj location_data) "longitude"
  let weather_data := rescue_get_weather_alerts latArg lonArg
  let fire_data := rescue_get_nasa_firms_data latArg lonArg
  -- line 372-373: contact search
  let searchQuery := "emergency contact numbers " ++
    pyStr (jgetD location_data "location_name" .jnull) ++ " disaster management"
  let web_results := C.search searchQuery 3
  -- line 382-383: crawl contact pages through the resource agent
  let urls := web_results.map (·.url)
  let contactsVal ← resource_run C (.urls urls) none true
  let contact_info_by_url : List (String × JVal) :=
    match contactsVal with
    | .jobj o => o
    | _ => []
  -- line 387-389
  let triage_brief ← generate_triage_brief C query location_data weather_data
    fire_data contact_info_by_url web_results
  -- lines 392-418: format the user-facing response
  let safety ← pyDotGet triage_brief "safety_warning"
    (.jstr "No specific safety information available.")
  let shelter ← pyDotGet triage_brief "recommended_shelter"
    (.jstr "No shelter information available.")
  let contactsAid ← pyDotGet triage_brief "contactable_aid" (.jarr [])
  let contactLines ←
    if truthy contactsAid then do
      let sources ← pyIterE contactsAid
      sources.foldlM (fun (acc : List String) src => do
        let nm ← pyDotGet src "name" (.jstr "Unknown Source")
        let cs ← pyDotGet src "contacts" (.jarr [])
        let items ← pyIterE cs
        let lines ← items.mapM rescueFormatContact
        pure (acc ++ ["\n" ++ pyStr nm ++ ":"] ++ lines)) []
    else pure ["No specific contact information available."]
  let formatted_response :=
    ["üö® SAFETY WARNING:", pyStr safety,
     "\nüè† SHELTER INFORMATION:", pyStr shelter,
     "\n‚òéÔ∏è EMERGENCY CONTACTS:"] ++
    contactLines ++
    ["\nFollow instructions from local authorities and stay connected to emergency broadcasts."]
  let response_text := String.intercalate "\n" formatted_response
  -- lines 421-433: structured data
  let structured_data : JObj ← do
    let ct ← pyDotGet triage_brief "crisis_type" .jnull
    let ul ← pyDotGet triage_brief "urgency_level" .jnull
    let ia ← pyDotGet triage_brief "immediate_actions" (.jarr [])
    let ca ← pyDotGet triage_brief "contactable_aid" (.jarr [])
    let si ← pyDotGet triage_brief "safety_instructions" (.jarr [])
    pure ([
      ("location", jgetD location_data "location_name" .jnull),
      ("coordinates", .jobj [
        ("latitude", jgetD location_data "lat" .jnull),
        ("longitude", jgetD location_data "lon" .jnull)]),
      ("timestamp", .jnum C.now),
      ("crisis_type", ct), ("urgency_level", ul),
      ("immediate_actions", ia), ("contacts", ca),
      ("safety_instructions", si)] : JObj)
  let urgency ← pyDotGet triage_brief "urgency_level" (.jstr "high")
  pure (.jobj [
    ("response", .jstr response_text),
    ("data", .jobj structured_data),
    ("info_type", .jstr "rescue_information"),
    ("location", jgetD location_data "location_name" .jnull),
    ("is_emergency", .jbool true),
    ("urgency_level", urgency)])

/-! ### information agent (src/agents/information_agent.py) -/

/-- information_agent's `ask_ai` (lines 43-74): catches everything,
`None` on any failure or missing client. -/
def info_ask_ai (C : Collab) (prompt : String) : Option String :=
  if !C.infoClient then none else C.infoAI prompt

/-- information_agent `get_weather_alerts` (lines 76-101): static stub. -/
def info_get_weather_alerts (lat lon : JVal) : JObj :=
  [("location", .jstr (pyStr lat ++ "," ++ pyStr lon)),
   ("alerts", .jarr []),
   ("forecast", .jobj [
     ("next_24_hours", .jstr "Weather information unavailable. Please check local weather services."),
     ("next_48_hours", .jstr "Weather information unavailable. Please check local weather services.")])]

/-- `get_evacuation_routes` (lines 103-129): static stub. -/
def info_get_evacuation_routes : JVal := .jarr [.jobj [
  ("name", .jstr "Primary Evacuation Route"),
  ("status", .jstr "Unknown"),
  ("description", .jstr "Please contact local authorities for current evacuation routes"),
  ("closure_points", .jarr [])]]

/-- `get_emergency_shelter_locations` (lines 131-156): static stub. -/
def info_get_emergency_shelter_locations : JVal := .jarr [.jobj [
  ("name", .jstr "Local Emergency Shelter"),
  ("address", .jstr "Please contact local authorities for current shelter locations"),
  ("status", .jstr "Unknown"),
  ("amenities", .jarr [])]]

/-- `extract_location_from_query` (information_agent.py lines 158-216).
The AI branch returns the parsed JSON value as is (it need not carry a
`location_name`); the membership tests can raise on non-container JSON. -/
def extract_location_from_query (C : Collab) (query : String) :
    PyResult JVal := do
  let ai : Option JVal ←
    if C.infoClient then
      match info_ask_ai C (infoLocationPrompt query) with
      | some location_str =>
        if location_str ≠ "" then
          match extract_json_from_string C location_str with
          | some li =>
            if truthy li then do
              let hasLat ← pyIn "lat" li
              if hasLat then do
                let hasLon ← pyIn "lon" li
                if hasLon then pure (some li) else pure none
              else pure none
            else pure none
          | none => pure none
        else pure none
      | none => pure none
    else pure none
  match ai with
  | some li => pure li
  | none =>
    let lower_query := sLower query
    if sContains lower_query "punjab" then
      pure (.jobj [("location_name", .jstr "Punjab, India"),
        ("lat", .jnum (mkRat 311471 10000)), ("lon", .jnum (mkRat 753412 10000))])
    else if anyIn lower_query ["houston", "texas"] then
      pure (.jobj [("location_name", .jstr "Houston, Texas, USA"),
        ("lat", .jnum (mkRat 297604 10000)), ("lon", .jnum (mkRat (-953698) 10000))])
    else if sContains lower_query "miami" then
      pure (.jobj [("location_name", .jstr "Miami, Florida, USA"),
        ("lat", .jnum (mkRat 257617 10000)), ("lon", .jnum (mkRat (-801918) 10000))])
    else
      pure (.jobj [("location_name", .jstr "Unknown Location"),
        ("lat", .jnum 0), ("lon", .jnum 0)])

/-- The weather block of `generate_information_response`'s deterministic
fallback (lines 276-293). -/
def infoWeatherSection (weather_data : JVal) : PyResult (List String) := do
  let alertsV ← pyDotGet weather_data "alerts" .jnull
  let part1 ←
    if truthy alertsV then do
      let alertsIdx ← pyIndex weather_data "alerts"
      let alerts ← pyIterE alertsIdx
      let lines ← alerts.mapM (fun alert => do
        let ty ← pyDotGet alert "type" (.jstr "Alert")
        let sev ← pyDotGet alert "severity" (.jstr "Unknown")
        let de ← pyDotGet alert "description" (.jstr "No details available")
        pure ("- " ++ pyStr ty ++ " (" ++ pyStr sev ++ "): " ++ pyStr de))
      pure ("\nACTIVE WEATHER ALERTS:" :: lines)
    else pure []
  let hasForecast ← pyIn "forecast" weather_data
  let part2 ←
    if hasForecast then do
      let forecast ← pyDotGet weather_data "forecast" (.jobj [])
      let has24 ← pyIn "next_24_hours" forecast
      let l24 ←
        if has24 then do
          let v ← pyIndex forecast "next_24_hours"
          pure ["- Next 24 hours: " ++ pyStr v]
        else pure []
      let has48 ← pyIn "next_48_hours" forecast
      let l48 ←
        if has48 then do
          let v ← pyIndex forecast "next_48_hours"
          pure ["- Next 48 hours: " ++ pyStr v]
        else pure []
      pure (["\nWEATHER FORECAST:"] ++ l24 ++ l48)
    else pure []
  pure (part1 ++ part2)

/-- Python `', '.join(v)` (elements must be strings). -/
def pyJoinComma : JVal → PyResult String
  | .jarr l => do
    let ss ← l.mapM (fun x =>
      match x with
      | .jstr s => Except.ok s
      | _ => Except.error PyErr.typeError)
    pure (String.intercalate ", " ss)
  | .jstr s => .ok (String.intercalate ", " (s.data.map (fun c => ⟨[c]⟩)))
  | _ => .error .typeError

/-- The evacuation-routes block (information_agent.py lines 295-309). -/
def infoEvacSection (routes : List JVal) : PyResult (List String) := do
  let lines ← routes.foldlM (fun (acc : List String) route => do
    let nm ← pyDotGet route "name" (.jstr "Unnamed Route")
    let st ← pyDotGet route "status" (.jstr "Unknown")
    let de ← pyDotGet route "description" (.jstr "No description available")
    let status_str := if !jvEq st (.jstr "Open") then " (" ++ pyStr st ++ ")" else ""
    let closuresV ← pyDotGet route "closure_points" (.jarr [])
    let closures ← pyIterE closuresV
    pure (acc ++ ["- " ++ pyStr nm ++ status_str ++ ": " ++ pyStr de] ++
      closures.map (fun c => "  * CLOSURE: " ++ pyStr c))) []
  pure ("\nEVACUATION ROUTES:" :: lines)

/-- The shelters block (information_agent.py lines 311-329). -/
def infoShelterSection (shelters : List JVal) : PyResult (List String) := do
  let lines ← shelters.foldlM (fun (acc : List String) shelter => do
    let nm ← pyDotGet shelter "name" (.jstr "Unnamed Shelter")
    let addr ← pyDotGet shelter "address" (.jstr "Address unknown")
    let st ← pyDotGet shelter "status" (.jstr "")
    let status_str := if truthy st then " (" ++ pyStr st ++ ")" else ""
    let hasCap ← pyIn "capacity" shelter
    let capLines ←
      if hasCap then do
        let v ← pyIndex shelter "capacity"
        pure ["  Capacity: " ++ pyStr v]
      else pure []
    let amenities ← pyDotGet shelter "amenities" (.jarr [])
    let amenLines ←
      if truthy amenities then do
        let joined ← pyJoinComma amenities
        pure ["  Amenities: " ++ joined]
      else pure []
    pure (acc ++ ["- " ++ pyStr nm ++ status_str, "  Address: " ++ pyStr addr] ++
      capLines ++ amenLines)) []
  pure ("\nEMERGENCY SHELTERS:" :: lines)

/-- `generate_information_response` (information_agent.py lines 218-346).
With a live client, the synthesis prompt's f-string indexes
`location_data['location_name'] / ['lat'] / ['lon']`, raising `KeyError`
when absent; a non-empty AI answer is returned *as a bare string*. -/
def generate_information_response (C : Collab) (query : String)
    (location_data : JVal) (all_results : List JVal) : PyResult JVal := do
  let locNameV ← pyDotGet location_data "location_name" .jnull
  let coordsV ← pyDotGet location_data "coordinates" (.jobj [])
  let structured_data : JObj := [
    ("location", locNameV), ("coordinates", coordsV),
    ("timestamp", .jnum C.now), ("data_sources", .jarr all_results)]
  let aiResp : Option String ←
    if C.infoClient then do
      let data_str := jdumpIndent (.jarr all_results)
      let ln ← pyIndex location_data "location_name"
      let la ← pyIndex location_data "lat"
      let lo ← pyIndex location_data "lon"
      pure (info_ask_ai C
        (infoSynthesisPrompt query (pyStr ln) (pyStr la) (pyStr lo) data_str))
    else pure none
  match aiResp with
  | some ai_response =>
    if ai_response ≠ "" then pure (.jstr ai_response)
    else infoFallback C query location_data locNameV structured_data all_results
  | none => infoFallback C query location_data locNameV structured_data all_results
where
  /-- The deterministic formatting fallback (lines 272-346). -/
  infoFallback (C : Collab) (query : String) (location_data locNameV : JVal)
      (structured_data : JObj) (all_results : List JVal) : PyResult JVal := do
    let ln ← pyIndex location_data "location_name"
    let parts ← all_results.foldlM (fun (acc : List String) result => do
      match result with
      | .jobj _ => do
        let hasAlerts ← pyIn "alerts" result
        if hasAlerts then do
          let sec ← infoWeatherSection result
          pure (acc ++ sec)
        else pure acc
      | .jarr l =>
        match l with
        | [] => pure acc
        | first :: _ => do
          let hasStatus ← pyIn "status" first
          let hasClosure ← if hasStatus then pyIn "closure_points" first else pure false
          if hasStatus && hasClosure then do
            let sec ← infoEvacSection l
            pure (acc ++ sec)
          else do
            let hasAddr ← pyIn "address" first
            if hasAddr then do
              let sec ← infoShelterSection l
              pure (acc ++ sec)
            else pure acc
      | _ => pure acc)
      ["Here's the latest information for " ++ pyStr ln ++ ":"]
    let parts := parts ++ ["\nSAFETY RECOMMENDATION:",
      "Please follow all instructions from local authorities and stay tuned to official communication channels for updates."]
    let response_text := String.intercalate "\n" parts
    pure (.jobj [
      ("response", .jstr response_text),
      ("data", .jobj structured_data),
      ("info_type", .jstr "emergency_information"),
      ("location", locNameV),
      ("has_weather_data", .jbool (all_results.any (fun r =>
        sContains (sLower (pyStr r)) "weather"))),
      ("has_evacuation_data", .jbool (all_results.any (fun r =>
        sContains (sLower (pyStr r)) "evacuation"))),
      ("has_shelter_data", .jbool (all_results.any (fun r =>
        sContains (sLower (pyStr r)) "shelter")))])

/-- information_agent `run` (lines 348-433). -/
def information_run (C : Collab) (query : String) (query_info : Option JObj) :
    PyResult JVal := do
  let location_data : JVal ←
    match query_info with
    | some qi =>
      if truthy (.jobj qi) && truthy (jgetD qi "location" .jnull) then
        pure (.jobj [("location_name", jgetD qi "location" .jnull),
                     ("coordinates", jgetD qi "coordinates" (.jobj []))])
      else extract_location_from_query C query
    | none => extract_location_from_query C query
  -- line 372: the progress callback's f-string indexes
  -- `location_data['location_name']`
  let _ ← pyIndex location_data "location_name"
  let needsFlags : Bool × Bool × Bool ←
    if C.infoClient then
      match info_ask_ai C (infoNeedsPrompt query) with
      | some needs_str =>
        if needs_str ≠ "" then
          match extract_json_from_string C needs_str with
          | some needs_info =>
            if truthy needs_info then do
              let w ← pyDotGet needs_info "weather" (.jbool true)
              let e ← pyDotGet needs_info "evacuation" (.jbool true)
              let s ← pyDotGet needs_info "shelter" (.jbool true)
              pure (truthy w, truthy e, truthy s)
            else pure (true, true, true)
          | none => pure (true, true, true)
        else pure (true, true, true)
      | none => pure (true, true, true)
    else
      let lower_query := sLower query
      let w := anyIn lower_query ["weather", "forecast", "flood", "rain",
        "storm", "alert"]
      let e := anyIn lower_query ["evacuation", "evacuate", "route", "road",
        "path", "escape"]
      let s := anyIn lower_query ["shelter", "safe", "safety", "camp", "stay"]
      if !w && !e && !s then pure (true, true, true) else pure (w, e, s)
  let (hasW, hasE, hasS) := needsFlags
  let lat ← pyDotGet location_data "lat" (.jnum 0)
  let lon ← pyDotGet location_data "lon" (.jnum 0)
  let all_results : List JVal :=
    (if hasW then [(.jobj (info_get_weather_alerts lat lon) : JVal)] else []) ++
    (if hasE then [info_get_evacuation_routes] else []) ++
    (if hasS then [info_get_emergency_shelter_locations] else [])
  generate_information_response C query location_data all_results

/-! ### `route_query` (orchestrator.py lines 448-622) -/

/-- The location-pending response (lines 484-489). -/
def pendingLocationResponse (query_info : JObj) : JObj :=
  [("response", .jstr "I need to know your location to help with this request. Can you share your current location?"),
   ("needs_location", .jbool true),
   ("query_info", .jobj query_info),
   ("intent", .jstr "pending_location")]

/-- The local keyword intent classification of the intent-API except
branch (lines 531-541). -/
def localIntentClassify (query : String) : JVal × JObj :=
  let lower_query := sLower query
  if anyIn lower_query ["help", "emergency", "trapped", "hurt", "injured",
      "danger", "save", "rescue"] then
    (.jstr "rescue",
     [("intent", .jstr "rescue"), ("confidence", .jnum 70),
      ("reasoning", .jstr "Local classification based on emergency keywords")])
  else if anyIn lower_query ["where", "location", "find", "need", "supplies",
      "resource", "contact", "shelter"] then
    (.jstr "resource",
     [("intent", .jstr "resource"), ("confidence", .jnum 70),
      ("reasoning", .jstr "Local classification based on resource keywords")])
  else
    (.jstr "information",
     [("intent", .jstr "information"), ("confidence", .jnum 70),
      ("reasoning", .jstr "Local classification defaulting to information")])

/-- The hardcoded emergency message of the fatal path (lines 604-612),
after `.strip()`. -/
def fatalErrorMessage (e : PyErr) : String :=
  "I apologize, but I encountered an error while processing your request: " ++
  pyErrStr e ++ ". \n" ++
  "            \n" ++
  "            If this is a life-threatening emergency, please immediately contact your local emergency services:\n" ++
  "            - In most countries, dial 911 or 112 for emergency services\n" ++
  "            - If possible, provide clear details about your location and situation\n" ++
  "            \n" ++
  "            Please try again with your request in a moment."

/-! `process_query` is total (it recovers every failure locally), so the
`except` of step 1 — and with it the `use_local_fallback` early return of
lines 476-479 — is unreachable, and `use_local_fallback` stays `False` on
every live path.  The only way `route_query` itself raises is the
`intent.upper()` f-string argument of the progress callback at line 544,
evaluated outside every `try`, when the intent-classification response
parsed to an object whose `"intent"` value is not a string. -/

/-- Steps 2b-3 of `route_query` (lines 543-622), from the progress
callback of line 544 onward, with the classified intent value and the
intent dict in hand. -/
def routeStep3 (C : Collab) (query : String) (query_info : JObj)
    (intentV : JVal) (intent_data : JObj) : PyResult JObj := do
  let _ := intent_data
  -- line 544: `f"... {intent.upper()} ..."` raises on non-string intent
  let _ ← pyUpperV intentV
  let intent ←
    match intentV with
    | .jstr s => pure s
    | _ => Except.error PyErr.attributeError
  -- Step 3 (lines 547-622)
  let handlerResult : PyResult JVal :=
    if intent = "rescue" then rescue_run C query (some query_info)
    else if intent = "resource" then
      resource_run C (.query query) (some query_info) false
    else information_run C query (some query_info)
  match handlerResult with
  | .ok response =>
    -- lines 578-584
    let respField := match response with
      | .jobj o => jgetD o "response" .jnull
      | v => v
    let agentData := match response with
      | .jobj o => jgetD o "data" .jnull
      | _ => .jnull
    pure [("response", respField), ("intent", .jstr intent),
          ("query_info", .jobj query_info), ("agent_data", agentData),
          ("used_local_fallback", .jbool false)]
  | .error _ =>
    -- agent except (lines 559-575): recompute the analysis locally
    -- (use_local_fallback is false) and answer with the local response
    let qi2 := orchestrator_local_process_query query
    match orchestrator_generate_local_response query qi2 with
    | .ok local_response =>
      pure (jset (jset (jset local_response
            "used_local_fallback" (.jbool true))
            "intent" (.jstr intent))
            "query_info" (.jobj qi2))
    | .error e =>
      -- the inner except block itself raised → outer except (585-622);
      -- `query_info` was reassigned at line 565, so the guarded retry
      -- calls the same pure function on the same argument
      match orchestrator_generate_local_response query qi2 with
      | .ok lr2 =>
        pure (jset (jset (jset (jset lr2
              "intent" (.jstr intent))
              "query_info" (.jobj qi2))
              "used_local_fallback" (.jbool true))
              "error" (.jstr (pyErrStr e)))
      | .error e2 =>
        -- fatal static message (lines 602-622)
        pure [("response", .jstr (fatalErrorMessage e)),
              ("intent", .jstr intent),
              ("query_info", .jobj qi2),
              ("error", .jstr (pyErrStr e ++ ". Fallback also failed: " ++
                pyErrStr e2)),
              ("is_error", .jbool true),
              ("used_local_fallback", .jbool false)]

/-- `route_query(query)` (orchestrator.py lines 448-622): steps 1-2a,
then `routeStep3`. -/
def route_query (C : Collab) (query : String) : PyResult JObj :=
  let use_local_fallback := false
  let query_info := process_query C query
  if use_local_fallback && truthy (.jobj query_info) then
    orchestrator_generate_local_response query query_info
  else if truthy (jgetD query_info "needs_location_prompt" (.jbool false)) &&
     !truthy (jgetD query_info "location" .jnull) then
    pure (pendingLocationResponse query_info)
  else
    let intent_prompt := intentPrompt query query_info
    let intent_response := cerebras_llama_call C intent_prompt
    let p : JVal × JObj :=
      match C.jparse intent_response with
      | some (.jobj o) => (jgetD o "intent" (.jstr "information"), o)
      | some _ =>
        -- `json.loads` succeeded with a non-dict: `intent_data.get` raises
        -- `AttributeError` (not caught by the inner `except`), landing in
        -- the outer except → local keyword classification (lines 527-541)
        localIntentClassify query
      | none =>
        -- `JSONDecodeError` → inner except (lines 523-526): default intent
        (.jstr "information",
         [("intent", .jstr "information"), ("confidence", .jnum 60),
          ("reasoning", .jstr "Default classification due to API issue")])
    routeStep3 C query query_info p.1 p.2

/-! ### Concrete collaborator behaviours for the claim evaluations -/

/-- Modelled from the spec: `json.loads` (Python stdlib, outside src/) on
exactly the strings the concrete collaborator behaviours below can feed
it; each equation agrees with CPython's `json.loads` on that string, and
every other string is rejected exactly like the surrounding recovery code
expects for non-JSON text. -/
def knownParse : String → Option JVal := fun s =>
  if s = defaultRescueJson then
    some (.jobj [("intent", .jstr "rescue"), ("confidence", .jnum 90),
      ("reasoning", .jstr "Error occurred, defaulting to rescue for safety")])
  else if s = defaultResourceJson then
    some (.jobj [("intent", .jstr "resource"), ("confidence", .jnum 70),
      ("reasoning", .jstr "Error occurred, defaulting to resource based on keywords")])
  else if s = defaultInformationJson then
    some (.jobj [("intent", .jstr "information"), ("confidence", .jnum 50),
      ("reasoning", .jstr "Error occurred, defaulting to information")])
  else if s = "\x7b\"intent\": 5\x7d" then
    some (.jobj [("intent", .jnum 5)])
  else if s = "\x7b\"location\": \"Paris\", \"location_confidence\": 1\x7d" then
    some (.jobj [("location", .jstr "Paris"), ("location_confidence", .jnum 1)])
  else none

/-- Every collaborator call fails: inference raises, no client objects, no
crawler, empty search results. -/
def allFailCollab : Collab := {
  inference := fun _ => .throw
  jparse := knownParse
  now := 0
  search := fun _ _ => []
  crawlerAvailable := false
  fetch := fun _ => .noContent
  rescueClient := false
  resourceClient := false
  resourceAI := fun _ => none
  infoClient := false
  infoAI := fun _ => none }

/-- Every collaborator call fails, with the inference failure mode split
by call site: the analysis call returns unparseable text, the
intent-classification call raises. -/
def mixedFailCollab : Collab :=
  { allFailCollab with
    inference := fun p =>
      if sContains p "classify its primary intent" then .throw
      else .ret "SERVICE UNAVAILABLE" }

/-- A collaborator whose analysis answer carries a confident location and
whose intent answer is a JSON object with a *numeric* `"intent"`. -/
def numericIntentCollab : Collab :=
  { allFailCollab with
    inference := fun p =>
      if sContains p "classify its primary intent" then
        .ret "\x7b\"intent\": 5\x7d"
      else .ret "\x7b\"location\": \"Paris\", \"location_confidence\": 1\x7d" }

def fireQuery : String := "there is a fire near me"
section DictLemmas

variable {k k' : String} {v : JVal}

theorem find?_jsetMap_ne (o : JObj) (h : k' ≠ k) :
    List.find? (fun p => p.1 = k')
      (o.map (fun p => if p.1 = k then (k, v) else p)) =
    List.find? (fun p => p.1 = k') o := by
  induction o with
  | nil => rfl
  | cons p t ih =>
    simp only [List.map_cons]
    by_cases hp : p.1 = k <;> by_cases hp' : p.1 = k' <;>
      simp_all [List.find?]

theorem jget_jset_ne (o : JObj) (h : k' ≠ k) :
    jget (jset o k v) k' = jget o k' := by
  unfold jget jset
  split
  · rw [find?_jsetMap_ne o h]
  · rw [List.find?_append]
    have hone : List.find? (fun p : String × JVal => p.1 = k') [(k, v)] = none := by
      rw [List.find?_cons_of_neg _ (by
        simp only [decide_eq_true_eq]
        exact fun hh => h hh.symm)]
      rfl
    rw [hone]
    cases List.find? (fun p : String × JVal => decide (p.1 = k')) o <;> rfl

theorem jget_jset_same (o : JObj) :
    jget (jset o k v) k = some v := by
  unfold jget jset
  split
  · rename_i hfind
    induction o with
    | nil => simp at hfind
    | cons p t ih =>
      simp only [List.map_cons]
      by_cases hp : p.1 = k
      · rw [if_pos hp, List.find?_cons_of_pos _ (by simp)]
        rfl
      · rw [if_neg hp, List.find?_cons_of_neg _ (by simp [hp])]
        apply ih
        rw [List.find?_cons_of_neg _ (by simp [hp])] at hfind
        exact hfind
  · rename_i hfind
    have hnone : List.find? (fun p : String × JVal => p.1 = k) o = none := by
      cases hq : List.find? (fun p : String × JVal => decide (p.1 = k)) o with
      | none => rfl
      | some x => rw [hq] at hfind; simp at hfind
    rw [List.find?_append, hnone, List.find?_cons_of_pos _ (by simp)]
    rfl

theorem jget_jpush_ne (o : JObj) (vs : List JVal) (h : k' ≠ k) :
    jget (jpush o k vs) k' = jget o k' := by
  unfold jpush
  split
  · rw [jget_jset_ne _ h]
  · rfl

end DictLemmas

/-! ### Laws of `pyDedup` -/

/-- Index of the first occurrence of `x` in `l`. -/
def firstOccur (l : List (List Char)) (x : List Char) : Nat :=
  (l.takeWhile (fun y => y ≠ x)).length

theorem pyDedupGo_mem (l : List (List Char)) (x : List Char) :
    ∀ seen, (x ∈ pyDedupGo seen l ↔ (x ∈ l ∧ x ∉ seen)) := by
  induction l with
  | nil => intro seen; simp [pyDedupGo]
  | cons a t ih =>
    intro seen
    rw [pyDedupGo]
    by_cases hc : seen.contains a
    · have ha : a ∈ seen := List.elem_iff.mp hc
      rw [if_pos hc, ih seen]
      constructor
      · rintro ⟨h1, h2⟩
        exact ⟨List.mem_cons_of_mem a h1, h2⟩
      · rintro ⟨h1, h2⟩
        rcases List.mem_cons.mp h1 with h | h
        · exact absurd (h ▸ ha) h2
        · exact ⟨h, h2⟩
    · have ha : a ∉ seen := fun hh => hc (List.elem_iff.mpr hh)
      rw [if_neg hc]
      constructor
      · intro hx
        rcases List.mem_cons.mp hx with h | h
        · exact ⟨h ▸ List.mem_cons_self a t, h ▸ ha⟩
        · have := (ih (a :: seen)).mp h
          exact ⟨List.mem_cons_of_mem a this.1,
            fun hh => this.2 (List.mem_cons_of_mem a hh)⟩
      · rintro ⟨h1, h2⟩
        by_cases hxa : x = a
        · exact hxa ▸ List.mem_cons_self a _
        · rcases List.mem_cons.mp h1 with h | h
          · exact absurd h hxa
          · exact List.mem_cons_of_mem a ((ih (a :: seen)).mpr
              ⟨h, by
                intro hh
                rcases List.mem_cons.mp hh with h3 | h3
                · exact hxa h3
                · exact h2 h3⟩)

theorem pyDedup_mem (l : List (List Char)) (x : List Char) :
    x ∈ pyDedup l ↔ x ∈ l := by
  rw [pyDedup, pyDedupGo_mem]
  simp

theorem pyDedupGo_sublist (l : List (List Char)) :
    ∀ seen, (pyDedupGo seen l).Sublist l := by
  induction l with
  | nil => intro seen; simp [pyDedupGo]
  | cons a t ih =>
    intro seen
    rw [pyDedupGo]
    by_cases hc : seen.contains a
    · rw [if_pos hc]
      exact (ih seen).trans (List.sublist_cons_self a t)
    · rw [if_neg hc]
      exact List.Sublist.cons₂ a (ih (a :: seen))

theorem pyDedup_sublist (l : List (List Char)) : (pyDedup l).Sublist l :=
  pyDedupGo_sublist l []

theorem pyDedupGo_nodup (l : List (List Char)) :
    ∀ seen, (pyDedupGo seen l).Nodup := by
  induction l with
  | nil => intro seen; simp [pyDedupGo]
  | cons a t ih =>
    intro seen
    rw [pyDedupGo]
    by_cases hc : seen.contains a
    · rw [if_pos hc]; exact ih seen
    · rw [if_neg hc]
      refine List.nodup_cons.mpr ⟨?_, ih (a :: seen)⟩
      intro hmem
      have := (pyDedupGo_mem t a (a :: seen)).mp hmem
      exact this.2 (List.mem_cons_self a seen)

theorem pyDedup_nodup (l : List (List Char)) : (pyDedup l).Nodup :=
  pyDedupGo_nodup l []

theorem firstOccur_cons_self (l : List (List Char)) (x : List Char) :
    firstOccur (x :: l) x = 0 := by
  simp [firstOccur, List.takeWhile]

theorem firstOccur_cons_ne (l : List (List Char)) (a x : List Char)
    (h : x ≠ a) : firstOccur (a :: l) x = firstOccur l x + 1 := by
  have hax : ¬ (a = x) := fun hh => h hh.symm
  simp [firstOccur, List.takeWhile, hax]

theorem pyDedupGo_pairwise (l : List (List Char)) :
    ∀ seen, (pyDedupGo seen l).Pairwise
      (fun a b => firstOccur l a < firstOccur l b) := by
  induction l with
  | nil => intro seen; simp [pyDedupGo]
  | cons a t ih =>
    intro seen
    rw [pyDedupGo]
    by_cases hc : seen.contains a
    · rw [if_pos hc]
      have ha : a ∈ seen := List.elem_iff.mp hc
      refine List.Pairwise.imp_of_mem ?_ (ih seen)
      intro x y hx hy hlt
      have hxm := (pyDedupGo_mem t x seen).mp hx
      have hym := (pyDedupGo_mem t y seen).mp hy
      have hxa : x ≠ a := fun hh => hxm.2 (hh ▸ ha)
      have hya : y ≠ a := fun hh => hym.2 (hh ▸ ha)
      rw [firstOccur_cons_ne _ _ _ hxa, firstOccur_cons_ne _ _ _ hya]
      exact Nat.succ_lt_succ hlt
    · rw [if_neg hc]
      refine List.pairwise_cons.mpr ⟨?_, ?_⟩
      · intro y hy
        have hym := (pyDedupGo_mem t y (a :: seen)).mp hy
        have hya : y ≠ a := fun hh => hym.2 (hh ▸ List.mem_cons_self a seen)
        rw [firstOccur_cons_self, firstOccur_cons_ne _ _ _ hya]
        exact Nat.succ_pos _
      · refine List.Pairwise.imp_of_mem ?_ (ih (a :: seen))
        intro x y hx hy hlt
        have hxm := (pyDedupGo_mem t x (a :: seen)).mp hx
        have hym := (pyDedupGo_mem t y (a :: seen)).mp hy
        have hxa : x ≠ a := fun hh => hxm.2 (hh ▸ List.mem_cons_self a seen)
        have hya : y ≠ a := fun hh => hym.2 (hh ▸ List.mem_cons_self a seen)
        rw [firstOccur_cons_ne _ _ _ hxa, firstOccur_cons_ne _ _ _ hya]
        exact Nat.succ_lt_succ hlt

/-- The deduplicated list is ordered by first occurrence in the original. -/
theorem pyDedup_pairwise_firstOccur (l : List (List Char)) :
    (pyDedup l).Pairwise (fun a b => firstOccur l a < firstOccur l b) :=
  pyDedupGo_pairwise l []

/-! ### Substring containment -/

theorem strContains_iff (s pat : List Char) :
    strContains s pat = true ↔ pat <:+: s := by
  induction s with
  | nil =>
    rw [strContains]
    rw [List.isPrefixOf_iff_prefix]
    constructor
    · intro h
      exact h.isInfix
    · intro h
      have := List.eq_nil_of_infix_nil h
      simp [this]
  | cons c t ih =>
    rw [strContains, Bool.or_eq_true, List.isPrefixOf_iff_prefix, ih]
    exact (List.infix_cons_iff).symm

theorem strContains_append_right (a b pat : List Char)
    (h : pat <:+: b) : strContains (a ++ b) pat = true := by
  rw [strContains_iff]
  exact h.trans (List.suffix_append a b).isInfix

/-! ### Claims C2 and C5 -/

/-- C2 — For every input text, the contact record returned by
`extract_contacts_from_markdown` has disjoint `emergency_phone` and
`phone` lists: the standard-phone pass (resource_agent.py line 156)
filters out every cleaned number already present in the final
emergency-phone list, and deduplication preserves membership. -/
theorem extract_contacts_disjoint (t : String) (s : List Char)
    (h : s ∈ (extract_contacts_from_markdown t).emergency_phone) :
    s ∉ (extract_contacts_from_markdown t).phone := by
  by_cases hemp : t.data.isEmpty
  · rw [extract_contacts_from_markdown, if_pos hemp] at h
    simp at h
  · rw [extract_contacts_from_markdown, if_neg hemp] at h ⊢
    dsimp only at h ⊢
    intro hmem
    rw [phoneList, pyDedup_mem] at hmem
    have hpred := (List.mem_filter.mp hmem).2
    rw [Bool.and_eq_true] at hpred
    have hcontains := hpred.2
    rw [Bool.not_eq_eq_eq_not, Bool.not_true] at hcontains
    have hc2 : (emergencyList t.data).contains s = true := by
      show List.elem s (emergencyList t.data) = true
      rw [emergencyList]
      exact List.elem_iff.mpr h
    rw [hc2] at hcontains
    cases hcontains

/-- C2 at a concrete input: the markdown `tel:` link `[call](tel:1234567)`
produces an emergency phone, and the theorem places it outside `phone`. -/
theorem extract_contacts_disjoint_witness :
    "1234567".data ∈
      (extract_contacts_from_markdown "[call](tel:1234567)").emergency_phone ∧
    "1234567".data ∉
      (extract_contacts_from_markdown "[call](tel:1234567)").phone :=
  ⟨by decide, extract_contacts_disjoint "[call](tel:1234567)" _ (by decide)⟩

/-- C5 — every field of the extraction result is duplicate-free, and its
entries are ordered by the first occurrence of each string in that pass's
candidate scan, because each field is `list(dict.fromkeys(...))` of its
scan-ordered candidates. -/
theorem extract_contacts_nodup_first_seen_order (t : String) :
    ((extract_contacts_from_markdown t).phone.Nodup ∧
     (extract_contacts_from_markdown t).emergency_phone.Nodup ∧
     (extract_contacts_from_markdown t).email.Nodup ∧
     (extract_contacts_from_markdown t).address.Nodup) ∧
    ((extract_contacts_from_markdown t).phone.Pairwise (fun a b =>
        firstOccur (phoneCandidates t.data) a <
        firstOccur (phoneCandidates t.data) b) ∧
     (extract_contacts_from_markdown t).emergency_phone.Pairwise (fun a b =>
        firstOccur (emergencyCandidates t.data) a <
        firstOccur (emergencyCandidates t.data) b) ∧
     (extract_contacts_from_markdown t).email.Pairwise (fun a b =>
        firstOccur (emailCandidates t.data) a <
        firstOccur (emailCandidates t.data) b) ∧
     (extract_contacts_from_markdown t).address.Pairwise (fun a b =>
        firstOccur (finalAddresses t.data) a <
        firstOccur (finalAddresses t.data) b)) := by
  by_cases hemp : t.data.isEmpty
  · rw [extract_contacts_from_markdown, if_pos hemp]
    simp
  · rw [extract_contacts_from_markdown, if_neg hemp]
    dsimp only
    rw [phoneList, emergencyList, emailList, addressList]
    exact ⟨⟨pyDedup_nodup _, pyDedup_nodup _, pyDedup_nodup _, pyDedup_nodup _⟩,
      pyDedup_pairwise_firstOccur _, pyDedup_pairwise_firstOccur _,
      pyDedup_pairwise_firstOccur _, pyDedup_pairwise_firstOccur _⟩

/-! ### Claims C3, C4, C6 -/

def c3Input : String := "Emergency Hotline: (800) 555-0123"

/-- C3 — what the code actually does on the claim's input: both phone
lists come back *empty*.  Each phone pattern contains exactly one
capturing group (the `tel:` link number), so `re.findall` returns the
group texts: `''` for every match produced by the keyword/US-format or
general alternatives.  The cleaning loop then drops every `''` at the
`>= 7` digit check, so `"8005550123"` is never extracted — contradicting
the claim that it lands in `emergency_phone`. -/
theorem extract_c3_input_empty :
    (extract_contacts_from_markdown c3Input).emergency_phone = [] ∧
    (extract_contacts_from_markdown c3Input).phone = [] := by
  constructor <;> rfl

def c4Input : String := "Call (555) 123-4567 on 2024-05-01"

/-- C4 — what the code actually does on the claim's input: both phone
lists are empty, for the same single-capture-group `findall` reason as
C3.  The date `2024-05-01` is indeed not classified as a phone number,
but only vacuously — `"5551234567"` is not in `phone` either,
contradicting the claim's second half. -/
theorem extract_c4_input_empty :
    (extract_contacts_from_markdown c4Input).phone = [] ∧
    (extract_contacts_from_markdown c4Input).emergency_phone = [] := by
  constructor <;> rfl

def c6Input : String := "123 Main St\nAnytown, ST 90210"

def c6Merged : String := "123 Main St Anytown, ST 90210"

/-- C6 — the two-line street / city-state-ZIP block is merged into a
single address string containing both the street line and the ZIP. -/
theorem extract_c6_single_merged_address :
    (extract_contacts_from_markdown c6Input).address = [c6Merged.data] ∧
    strContains c6Merged.data "123 Main St".data = true ∧
    strContains c6Merged.data "90210".data = true := by
  refine ⟨by rfl, by rfl, by rfl⟩

/-! ### Frame lemmas for the local-analysis steps -/

/-- The crisis-type step writes only `crisis_type`. -/
theorem localCrisisStep_pres (ql : String) (r : JObj) (k : String)
    (h1 : k ≠ "crisis_type") :
    jget (localCrisisStep ql r) k = jget r k := by
  unfold localCrisisStep
  split
  · rw [jget_jset_ne _ h1]
  · rfl

/-- The medical step writes only its three fields. -/
theorem localMedicalStep_pres (ql : String) (r : JObj) (k : String)
    (h1 : k ≠ "needs_medical") (h2 : k ≠ "extracted_keywords")
    (h3 : k ≠ "potential_resources_needed") :
    jget (localMedicalStep ql r) k = jget r k := by
  unfold localMedicalStep
  split
  · rw [jget_jpush_ne _ _ h3, jget_jpush_ne _ _ h2,
      jget_jset_ne _ h1]
  · rfl

/-- The evacuation step writes only its three fields. -/
theorem localEvacStep_pres (ql : String) (r : JObj) (k : String)
    (h1 : k ≠ "needs_evacuation") (h2 : k ≠ "extracted_keywords")
    (h3 : k ≠ "potential_resources_needed") :
    jget (localEvacStep ql r) k = jget r k := by
  unfold localEvacStep
  split
  · rw [jget_jpush_ne _ _ h3, jget_jpush_ne _ _ h2,
      jget_jset_ne _ h1]
  · rfl

/-- The supplies step writes only its three fields. -/
theorem localSuppliesStep_pres (ql : String) (r : JObj) (k : String)
    (h1 : k ≠ "needs_supplies") (h2 : k ≠ "extracted_keywords")
    (h3 : k ≠ "potential_resources_needed") :
    jget (localSuppliesStep ql r) k = jget r k := by
  unfold localSuppliesStep
  split
  · rw [jget_jpush_ne _ _ h3, jget_jpush_ne _ _ h2,
      jget_jset_ne _ h1]
  · rfl

/-- The dependents step writes only its two fields. -/
theorem localDependentsStep_pres (ql : String) (r : JObj) (k : String)
    (h1 : k ≠ "has_dependents") (h2 : k ≠ "extracted_keywords") :
    jget (localDependentsStep ql r) k = jget r k := by
  unfold localDependentsStep
  split
  · rw [jget_jpush_ne _ _ h2, jget_jset_ne _ h1]
  · rfl

/-- The urgency step writes only `urgency_level`. -/
theorem localUrgencyStep_pres (ql : String) (r : JObj) (k : String)
    (h1 : k ≠ "urgency_level") :
    jget (localUrgencyStep ql r) k = jget r k := by
  unfold localUrgencyStep
  split
  · rw [jget_jset_ne _ h1]
  · split <;> rw [jget_jset_ne _ h1]

/-! ### Claim C9 -/

/-- A `query_info` whose `crisis_type` entry, if any, is a string — the
shape the data model (§3) prescribes, and the only shape the program ever
hands the FallbackResponder: `route_query` invokes it solely on the local
analyzer's output (orchestrator.py line 565), whose `crisis_type` is
always a string (`localProcess_crisisType_str` below).  Outside this
shape the responder's behaviour is mixed — an unhashable `crisis_type`
raises `TypeError` at the dict lookup of line 238/293 under
rescue / information intent, a non-iterable one at the membership test of
line 263 when the resource branch reaches it, and the remaining
combinations return normally — so the string shape is the largest
hypothesis uniform in the query. -/
def crisisTypeWellFormed (qi : JObj) : Prop :=
  match jget qi "crisis_type" with
  | none => True
  | some (JVal.jstr _) => True
  | some _ => False

/-- The local analyzer always produces a string `crisis_type`: the
default is `"unknown"` (orchestrator.py line 124) and the keyword step
only ever overwrites it with a key of the `crisis_keywords` table
(line 167).  Hence the hypothesis of the amended C9 covers every call
the program makes. -/
theorem localProcess_crisisType_str (query : String) :
    crisisTypeWellFormed (orchestrator_local_process_query query) := by
  have hx : ∃ s, jget (orchestrator_local_process_query query) "crisis_type"
      = some (JVal.jstr s) := by
    unfold orchestrator_local_process_query
    dsimp only
    rw [localUrgencyStep_pres _ _ _ (by decide),
      localDependentsStep_pres _ _ _ (by decide) (by decide),
      localSuppliesStep_pres _ _ _ (by decide) (by decide) (by decide),
      localEvacStep_pres _ _ _ (by decide) (by decide) (by decide),
      localMedicalStep_pres _ _ _ (by decide) (by decide) (by decide)]
    unfold localCrisisStep
    split
    · exact ⟨_, jget_jset_same _⟩
    · unfold localLocStep
      split
      · rw [jget_jset_ne _ (by decide), jget_jset_ne _ (by decide)]
        exact ⟨"unknown", rfl⟩
      · exact ⟨"unknown", rfl⟩
  obtain ⟨s, hs⟩ := hx
  unfold crisisTypeWellFormed
  rw [hs]
  trivial

theorem genRescueBranch_ok (location : JVal) (cs : String) :
    ∃ resp sd, genRescueBranch location (.jstr cs) = Except.ok (resp, sd) :=
  ⟨_, _, rfl⟩

theorem genInformationBranch_ok (location : JVal) (cs : String) :
    ∃ resp sd, genInformationBranch location (.jstr cs) = Except.ok (resp, sd) :=
  ⟨_, _, rfl⟩

theorem genResourceBranch_ok (ql : String) (qi : JObj) (location : JVal)
    (cs : String) :
    ∃ resp sd, genResourceBranch ql qi location (.jstr cs) =
      Except.ok (resp, sd) := by
  unfold genResourceBranch
  dsimp only
  repeat' split
  all_goals
    first
      | exact ⟨_, _, rfl⟩
      | (simp only [pyIn, Except.bind, bind]
         split <;> exact ⟨_, _, rfl⟩)

/-- When `crisis_type` is well formed, the FallbackResponder returns
normally, and its record is the five-field dictionary with the response
text ending in the local-protocol note and `used_local_fallback = True`. -/
theorem gen_ok_shape (q : String) (qi : JObj) (h : crisisTypeWellFormed qi) :
    ∃ (resp : String) (intent : String) (sd : JObj),
      orchestrator_generate_local_response q qi = Except.ok
        [("response", .jstr (resp ++ localFallbackNote)),
         ("intent", .jstr intent),
         ("query_info", .jobj qi),
         ("agent_data", .jobj sd),
         ("used_local_fallback", .jbool true)] := by
  have hct : ∃ cs, jgetD qi "crisis_type" (.jstr "general") = JVal.jstr cs := by
    unfold crisisTypeWellFormed at h
    unfold jgetD
    cases hq : jget qi "crisis_type" with
    | none => exact ⟨"general", rfl⟩
    | some v =>
      rw [hq] at h
      cases v <;> simp_all
  obtain ⟨cs, hcs⟩ := hct
  unfold orchestrator_generate_local_response
  dsimp only
  rw [hcs]
  by_cases h1 : anyIn (sLower q) ["help", "emergency", "trapped", "hurt",
      "injured", "danger", "save", "rescue"]
  · simp only [h1, if_true]
    obtain ⟨resp, sd, hb⟩ := genRescueBranch_ok
      (jgetD qi "location" (JVal.jstr "your area")) cs
    rw [hb]
    exact ⟨_, _, _, rfl⟩
  · simp only [h1, if_false]
    by_cases h2 : anyIn (sLower q) ["where", "location", "find", "need",
        "supplies", "resource", "contact", "shelter"]
    · simp only [h2, if_true]
      obtain ⟨resp, sd, hb⟩ := genResourceBranch_ok (sLower q) qi
        (jgetD qi "location" (JVal.jstr "your area")) cs
      simp only [Bool.false_eq_true, if_false]
      rw [if_neg (show ¬(("resource" : String) = "rescue") from by decide),
        if_pos (show True from trivial), hb]
      exact ⟨_, _, _, rfl⟩
    · simp only [h2, if_false]
      obtain ⟨resp, sd, hb⟩ := genInformationBranch_ok
        (jgetD qi "location" (JVal.jstr "your area")) cs
      simp only [Bool.false_eq_true, if_false]
      rw [if_neg (show ¬(("information" : String) = "resource") from by decide), hb]
      exact ⟨_, _, _, rfl⟩

set_option maxRecDepth 8000 in
/-- C9: counterexample.  The FallbackResponder's output for the query
`"x"` with an empty `query_info` succeeds, but its response text does not
contain the marker `"[generated via local protocol]"` that the
specification prescribes; the code appends a different note
(orchestrator.py line 311). -/
theorem C9_counterexample :
    ∃ r, orchestrator_generate_local_response "x" [] = Except.ok r ∧
      ∃ t, jget r "response" = some (JVal.jstr t) ∧
        sContains t "[generated via local protocol]" = false := by
  refine ⟨_, rfl, _, rfl, ?_⟩
  rfl

/-- C9 (amended): for every query and every `query_info` whose
`crisis_type` is absent or a string, the FallbackResponder — which by
construction performs no collaborator call: it is a pure function of the
query and the query info — returns normally with
`used_local_fallback = True`, and its response text contains the actual
marker the code appends, `"[Note: This response was generated using local
emergency protocols due to connection issues.]"` (orchestrator.py
line 311); and that hypothesis covers every call the program makes,
because the only `query_info` the Dispatcher ever hands the responder is
the local analyzer's output (line 565), whose `crisis_type` is always a
string. -/
theorem C9_amended (q : String) (qi : JObj) (h : crisisTypeWellFormed qi) :
    (∃ r, orchestrator_generate_local_response q qi = Except.ok r ∧
      jget r "used_local_fallback" = some (JVal.jbool true) ∧
      ∃ t, jget r "response" = some (JVal.jstr t) ∧
        sContains t "[Note: This response was generated using local emergency protocols due to connection issues.]" = true) ∧
    (∀ q', crisisTypeWellFormed (orchestrator_local_process_query q')) := by
  refine ⟨?_, localProcess_crisisType_str⟩
  obtain ⟨resp, intent, sd, hr⟩ := gen_ok_shape q qi h
  refine ⟨_, hr, rfl, resp ++ localFallbackNote, rfl, ?_⟩
  show strContains (resp ++ localFallbackNote).data _ = true
  rw [String.data_append]
  exact strContains_append_right _ _ _ ⟨"\n\n".data, [], rfl⟩

/-- C9: witness for the amended theorem at the concrete input
`("need shelter", \x7b"location": "Delhi"\x7d)`. -/
theorem C9_witness :
    crisisTypeWellFormed [("location", JVal.jstr "Delhi")] ∧
    ((∃ r, orchestrator_generate_local_response "need shelter"
        [("location", JVal.jstr "Delhi")] = Except.ok r ∧
      jget r "used_local_fallback" = some (JVal.jbool true) ∧
      ∃ t, jget r "response" = some (JVal.jstr t) ∧
        sContains t "[Note: This response was generated using local emergency protocols due to connection issues.]" = true) ∧
    (∀ q', crisisTypeWellFormed (orchestrator_local_process_query q'))) :=
  ⟨trivial, C9_amended "need shelter" [("location", JVal.jstr "Delhi")] trivial⟩

/-! ### Claim C7 -/

/-- In the local analysis, a null `location` in the result forces
`needs_location_prompt = True`: the two fields are written only together
(lines 122-123 defaults, lines 147-151 on a pattern match), and no later
step touches either. -/
theorem localProcess_needs (query : String)
    (h : jget (orchestrator_local_process_query query) "location"
      = some JVal.jnull) :
    jget (orchestrator_local_process_query query) "needs_location_prompt"
      = some (JVal.jbool true) := by
  unfold orchestrator_local_process_query at h ⊢
  dsimp only at h ⊢
  rw [localUrgencyStep_pres _ _ _ (by decide),
    localDependentsStep_pres _ _ _ (by decide) (by decide),
    localSuppliesStep_pres _ _ _ (by decide) (by decide) (by decide),
    localEvacStep_pres _ _ _ (by decide) (by decide) (by decide),
    localMedicalStep_pres _ _ _ (by decide) (by decide) (by decide),
    localCrisisStep_pres _ _ _ (by decide)] at h
  rw [localUrgencyStep_pres _ _ _ (by decide),
    localDependentsStep_pres _ _ _ (by decide) (by decide),
    localSuppliesStep_pres _ _ _ (by decide) (by decide) (by decide),
    localEvacStep_pres _ _ _ (by decide) (by decide) (by decide),
    localMedicalStep_pres _ _ _ (by decide) (by decide) (by decide),
    localCrisisStep_pres _ _ _ (by decide)]
  revert h
  unfold localLocStep
  split
  · intro h
    rw [jget_jset_ne _ (by decide), jget_jset_same] at h
    injection h with hv
    cases hv
  · intro _
    rfl

/-- The remote analysis preserves it: every return path of `process_query`
either goes through the local analyzer or handles the null / low-confidence
location explicitly (orchestrator.py lines 425-432). -/
theorem process_query_needs (C : Collab) (query : String)
    (h : jget (process_query C query) "location" = some JVal.jnull) :
    jget (process_query C query) "needs_location_prompt"
      = some (JVal.jbool true) := by
  unfold process_query at h ⊢
  dsimp only at h ⊢
  revert h
  split
  · exact localProcess_needs query
  · split
    · intro _
      rw [jget_jset_same]
    · next hcond =>
      split
      · intro _
        rw [jget_jset_same]
      · intro h
        exfalso
        apply hcond
        rw [jgetD, h]
        rfl
      · exact localProcess_needs query

/-- C7: for every query string and every collaborator behavior, the
query-info record produced by the analysis step — `process_query`, or its
local substitute `orchestrator_local_process_query` — has
`needs_location_prompt = True` whenever its `location` field is null. -/
theorem C7_needs_location_prompt (C : Collab) (query : String) :
    (jget (process_query C query) "location" = some JVal.jnull →
      jget (process_query C query) "needs_location_prompt"
        = some (JVal.jbool true)) ∧
    (jget (orchestrator_local_process_query query) "location"
        = some JVal.jnull →
      jget (orchestrator_local_process_query query) "needs_location_prompt"
        = some (JVal.jbool true)) :=
  ⟨process_query_needs C query, localProcess_needs query⟩

set_option maxRecDepth 8000 in
/-- C7: witness at the concrete input `("" , allFailCollab)`, where both
analyzers leave `location` null. -/
theorem C7_witness :
    jget (process_query allFailCollab "") "needs_location_prompt"
      = some (JVal.jbool true) ∧
    jget (orchestrator_local_process_query "") "needs_location_prompt"
      = some (JVal.jbool true) :=
  ⟨(C7_needs_location_prompt allFailCollab "").1 rfl,
   (C7_needs_location_prompt allFailCollab "").2 rfl⟩

/-! ### Claim C1 -/

/-- The record built at the end of the FallbackResponder, for any branch
result: on success it carries the five fixed fields. -/
theorem genRecord_fields (b : PyResult (String × JObj)) (qi : JObj)
    (intent : String) (r : JObj)
    (h : (do
        let y ← b
        pure [("response", JVal.jstr (y.1 ++ localFallbackNote)),
          ("intent", JVal.jstr intent), ("query_info", JVal.jobj qi),
          ("agent_data", JVal.jobj y.2),
          ("used_local_fallback", JVal.jbool true)] : PyResult JObj)
      = Except.ok r) :
    (jget r "response").isSome = true ∧ (jget r "intent").isSome = true ∧
      (jget r "query_info").isSome = true ∧
      jget r "used_local_fallback" = some (JVal.jbool true) := by
  cases b with
  | error e => simp only [bind, Except.bind, reduceCtorEq] at h
  | ok y =>
    simp only [bind, Except.bind, pure, Except.pure] at h
    injection h with h'
    subst h'
    exact ⟨rfl, rfl, rfl, rfl⟩

/-- Whenever the FallbackResponder returns normally, its record carries
the `response`, `intent` and `query_info` fields and
`used_local_fallback = True` (orchestrator.py lines 306-314). -/
theorem gen_ok_fields (q : String) (qi : JObj) (r : JObj)
    (h : orchestrator_generate_local_response q qi = Except.ok r) :
    (jget r "response").isSome = true ∧ (jget r "intent").isSome = true ∧
      (jget r "query_info").isSome = true ∧
      jget r "used_local_fallback" = some (JVal.jbool true) := by
  unfold orchestrator_generate_local_response at h
  dsimp only at h
  split at h
  · exact genRecord_fields _ _ _ _ h
  · split at h
    · exact genRecord_fields _ _ _ _ h
    · exact genRecord_fields _ _ _ _ h

/-- Every normal return of steps 2b-3 carries the `response`, `intent` and
`query_info` fields (orchestrator.py lines 578-584, 567-575, 592-600,
614-622). -/
theorem routeStep3_fields (C : Collab) (query : String) (qi : JObj)
    (iv : JVal) (idata : JObj) (r : JObj)
    (h : routeStep3 C query qi iv idata = Except.ok r) :
    (jget r "response").isSome = true ∧ (jget r "intent").isSome = true ∧
      (jget r "query_info").isSome = true := by
  unfold routeStep3 at h
  dsimp only at h
  cases iv with
  | jstr s =>
    simp only [pyUpperV, bind, Except.bind, pure, Except.pure] at h
    split at h
    · injection h with h'
      subst h'
      exact ⟨rfl, rfl, rfl⟩
    · split at h
      · rename_i lr hlr
        injection h with h'
        subst h'
        refine ⟨?_, ?_, ?_⟩
        · rw [jget_jset_ne _ (by decide), jget_jset_ne _ (by decide),
            jget_jset_ne _ (by decide)]
          exact (gen_ok_fields _ _ _ hlr).1
        · rw [jget_jset_ne _ (by decide), jget_jset_same]
          rfl
        · rw [jget_jset_same]
          rfl
      · -- the retry of the outer except calls the same pure function on
        -- the same argument, so it fails the same way and the static
        -- fatal record is returned
        split at h
        · rename_i lr2 hlr2
          exact absurd hlr2 (by simp)
        · injection h with h'
          subst h'
          exact ⟨rfl, rfl, rfl⟩
  | jnull => simp only [pyUpperV, bind, Except.bind, reduceCtorEq] at h
  | jbool b => simp only [pyUpperV, bind, Except.bind, reduceCtorEq] at h
  | jnum q' => simp only [pyUpperV, bind, Except.bind, reduceCtorEq] at h
  | jarr l => simp only [pyUpperV, bind, Except.bind, reduceCtorEq] at h
  | jobj o => simp only [pyUpperV, bind, Except.bind, reduceCtorEq] at h

set_option maxRecDepth 8000 in
/-- C1: counterexample.  `route_query` *can* raise: with a collaborator
whose intent-classification answer parses to the JSON object
`\x7b"intent": 5\x7d` and whose analysis answer carries a confident
location, the f-string `intent.upper()` at orchestrator.py line 544 —
evaluated outside every `try` — raises `AttributeError` on the query
`"there is a fire near me"`. -/
theorem C1_counterexample :
    route_query numericIntentCollab fireQuery
      = Except.error PyErr.attributeError := by
  rfl

/-- C1 (amended): on every path on which `route_query` *does* return, the
returned record carries the `response`, `intent` and `query_info`
fields.  (The unamended claim fails twice over: `route_query` can raise —
see the counterexample — and the location-pending return carries neither
an `agent_data` / `used_local_fallback` field nor an `is_error` flag.) -/
theorem C1_amended (C : Collab) (query : String) (r : JObj)
    (h : route_query C query = Except.ok r) :
    (jget r "response").isSome = true ∧ (jget r "intent").isSome = true ∧
      (jget r "query_info").isSome = true := by
  unfold route_query at h
  dsimp only at h
  simp only [Bool.false_and, Bool.false_eq_true, if_false] at h
  split at h
  · injection h with h'
    subst h'
    exact ⟨rfl, rfl, rfl⟩
  · exact routeStep3_fields _ _ _ _ _ _ h

set_option maxRecDepth 8000 in
/-- C1: witness for the amended theorem at the concrete input
`("", allFailCollab)`. -/
theorem C1_witness :
    ∃ r, route_query allFailCollab "" = Except.ok r ∧
      (jget r "response").isSome = true ∧ (jget r "intent").isSome = true ∧
        (jget r "query_info").isSome = true :=
  ⟨_, rfl, C1_amended allFailCollab "" _ rfl⟩

/-! ### Claim C10 -/

set_option maxRecDepth 8000 in
/-- C10: counterexample.  "Non-null `location`" is not enough: the local
analyzer's `at`-pattern can produce the non-null but *falsy* location
`""` — on the query `"help at   "` the match group is all whitespace, so
`group(1).strip()` is `""` and `needs_location_prompt` is even set to
`False` (orchestrator.py lines 147-151).  On that `query_info` the
truthiness test at rescue_agent.py line 352 fails, `run` takes the
`extract_coordinates_from_query` branch instead — whose keyword fallback
builds its dict with `latitude` / `longitude` keys (lines 163-170) — and
completes without raising, even with every collaborator failing. -/
theorem C10_counterexample :
    jget (orchestrator_local_process_query "help at   ") "location"
      = some (JVal.jstr "") ∧
    ∃ v, rescue_run allFailCollab "help at   "
        (some (orchestrator_local_process_query "help at   "))
      = Except.ok v :=
  ⟨rfl, _, rfl⟩

/-- C10 (amended): with a truthy `query_info` carrying a *truthy*
`location` — non-null and non-empty, which is what every location the
remote analyzer keeps and every non-empty local match looks like — the
rescue handler's `run` raises before producing any response: it builds
`location_data` with keys `'location_name'`, `'lat'`, `'lon'`
(rescue_agent.py lines 353-357) but immediately reads
`location_data['latitude']` at line 367; when the `coordinates` entry is
dict-shaped (or absent), that read is reached and raises
`KeyError('latitude')` — so the Dispatcher's catch-and-fallback path is
always taken for such queries.  (For a non-null but falsy location the
truthiness test at line 352 routes around the broken dict — see the
counterexample — which is why the claim's "non-null" scoping is too
wide.) -/
theorem C10_rescue_run_raises (C : Collab) (query : String) (qi : JObj)
    (h1 : truthy (.jobj qi) = true)
    (h2 : truthy (jgetD qi "location" .jnull) = true) :
    (∃ e, rescue_run C query (some qi) = Except.error e) ∧
    (∀ o, jgetD qi "coordinates" (.jobj []) = JVal.jobj o →
      rescue_run C query (some qi)
        = Except.error (PyErr.keyError "latitude")) := by
  constructor
  · cases hX : jgetD qi "coordinates" (.jobj []) <;>
      exact ⟨_, by
        unfold rescue_run
        dsimp only
        simp only [h1, h2, Bool.and_self]
        rw [if_pos (show True from trivial), hX]
        rfl⟩
  · intro o hX
    unfold rescue_run
    dsimp only
    simp only [h1, h2, Bool.and_self]
    rw [if_pos (show True from trivial), hX]
    rfl

/-- C10: witness for the amended theorem at the concrete input
`query_info = \x7b"location": "Punjab, India"\x7d`, query `"flood"`. -/
theorem C10_witness :
    truthy (.jobj [("location", JVal.jstr "Punjab, India")]) = true ∧
    truthy (jgetD [("location", JVal.jstr "Punjab, India")] "location"
      .jnull) = true ∧
    ((∃ e, rescue_run allFailCollab "flood"
        (some [("location", JVal.jstr "Punjab, India")]) = Except.error e) ∧
     (∀ o, jgetD [("location", JVal.jstr "Punjab, India")] "coordinates"
         (.jobj []) = JVal.jobj o →
       rescue_run allFailCollab "flood"
           (some [("location", JVal.jstr "Punjab, India")])
         = Except.error (PyErr.keyError "latitude"))) :=
  ⟨rfl, rfl,
   C10_rescue_run_raises allFailCollab "flood"
     [("location", JVal.jstr "Punjab, India")] rfl rfl⟩

/-! ### Claim C8 -/

set_option maxRecDepth 8000 in
/-- C8: counterexample.  When every collaborator call is forced to fail
(the inference call raises at both call sites), `cerebras_llama_call`
swallows the analysis failure and returns a canned intent-style JSON with
no location (orchestrator.py lines 346-360), so `route_query` on
`"there is a fire near me"` stops at the location prompt: intent is
`"pending_location"`, there is no `used_local_fallback` field at all, and
the response text carries no fire-specific safety instruction. -/
theorem C8_counterexample :
    ∃ r, route_query allFailCollab fireQuery = Except.ok r ∧
      jget r "intent" = some (JVal.jstr "pending_location") ∧
      jget r "used_local_fallback" = none ∧
      ∃ t, jget r "response" = some (JVal.jstr t) ∧
        sContains t "Cover nose and mouth with a wet cloth" = false := by
  refine ⟨_, rfl, rfl, rfl, _, rfl, ?_⟩
  rfl

set_option maxRecDepth 8000 in
/-- C8 (amended): the claimed behaviour does occur one failure mode away —
when the analysis call returns unparseable text (so the local analyzer
runs, detects the fire and a location) while the intent call raises: then
the canned rescue intent is used, the rescue handler raises
`KeyError('latitude')`, and `route_query` answers with the local fire
response: `used_local_fallback = True` and the fire-specific instruction
`"Cover nose and mouth with a wet cloth"` from
`LOCAL_SAFETY_INSTRUCTIONS` in the response text. -/
theorem C8_amended :
    ∃ r, route_query mixedFailCollab fireQuery = Except.ok r ∧
      jget r "used_local_fallback" = some (JVal.jbool true) ∧
      ∃ t, jget r "response" = some (JVal.jstr t) ∧
        sContains t "Cover nose and mouth with a wet cloth" = true := by
  refine ⟨_, rfl, rfl, _, rfl, ?_⟩
  rfl
